import Mathlib

/-!
# drm-cursor: plane negotiation and the per-pipe cursor update engine

A shallow embedding of `src/drm_cursor.c`.

* C `int` values are `Int`; the conversions `uint32_t -> int` that the source
  performs implicitly are written `to_int32`.
* `uint32_t` handles and object ids are `Nat`.
* Kernel queries (`drmModeGetCrtc`, `drmModeGetPlane`, ...) are read from a
  `drm_kernel` record of functions; the results of the calls that change the
  hardware (`drmModeSetPlane`, `egl_init_ctx`, `egl_convert_fb`) are read from
  a `hw_env` record, one per executed request, and every such call is appended
  to a list of `hw_call`s in the order the source issues it.
* A pipe's worker thread is the field `thread` of `drm_crtc`: it records where
  the thread stands in `drm_crtc_thread_fn` and, while a request executes, the
  thread's local copy `cursor_state`.
-/

namespace DrmCursor

/-! ## Machine integers -/

/-- Conversion of an integer value to C `int` (32 bit, two's complement). -/
def to_int32 (v : Int) : Int := (v + 2147483648) % 4294967296 - 2147483648

/-- The constant `DRM_MAX_CRTCS`. -/
def DRM_MAX_CRTCS : Nat := 8

/-- The value `DRM_PLANE_TYPE_OVERLAY` of the kernel interface. -/
def DRM_PLANE_TYPE_OVERLAY : Nat := 0

/-- The value `DRM_PLANE_TYPE_PRIMARY` of the kernel interface. -/
def DRM_PLANE_TYPE_PRIMARY : Nat := 1

/-- The macro `fourcc_mod_code(ARM, val)` with `DRM_FORMAT_MOD_VENDOR_ARM = 0x08`. -/
def DRM_FORMAT_MOD_ARM_AFBC (afbc_mode : Nat) : Nat :=
  (0x08 <<< 56) ||| (afbc_mode &&& 0x00ffffffffffffff)

/-- The constant `AFBC_FORMAT_MOD_BLOCK_SIZE_16x16`. -/
def AFBC_FORMAT_MOD_BLOCK_SIZE_16x16 : Nat := 1

/-- The constant `AFBC_FORMAT_MOD_SPARSE`. -/
def AFBC_FORMAT_MOD_SPARSE : Nat := 1 <<< 6

/-- The macro `DRM_AFBC_MODIFIER`. -/
def DRM_AFBC_MODIFIER : Nat :=
  DRM_FORMAT_MOD_ARM_AFBC AFBC_FORMAT_MOD_SPARSE |||
    DRM_FORMAT_MOD_ARM_AFBC AFBC_FORMAT_MOD_BLOCK_SIZE_16x16

/-- The errno value `EINVAL` of the Linux C library: 22. -/
def EINVAL : Int := 22

/-! ## Data model -/

/-- The struct `drm_cursor_state`. -/
structure drm_cursor_state where
  handle : Nat
  fb : Nat
  width : Int
  height : Int
  x : Int
  y : Int
  off_x : Int
  off_y : Int
  reload : Int
  deriving DecidableEq, Repr

/-- The all-zero cursor state, as left by `memset(.., 0, ..)` and by static
initialisation. -/
def drm_cursor_state.zero : drm_cursor_state :=
  { handle := 0, fb := 0, width := 0, height := 0, x := 0, y := 0,
    off_x := 0, off_y := 0, reload := 0 }

/-- The enum `drm_thread_state`. -/
inductive drm_thread_state where
  | IDLE
  | BUSY
  | ERROR
  | PENDING
  deriving DecidableEq, Repr

/-- Where a pipe's worker stands in `drm_crtc_thread_fn`.

* `not_started`: `pthread_create` was not called yet;
* `waiting`: at the top of `while (1)`, blocked until the state is `PENDING`;
* `running cs`: between the `pthread_mutex_unlock` that follows the copy of
  `cursor_next` and the label `next:` or `error:`; `cs` is the local variable
  `cursor_state`;
* `exited`: the thread returned through `error:`. -/
inductive drm_thread_pc where
  | not_started
  | waiting
  | running (cursor_state : drm_cursor_state)
  | exited
  deriving DecidableEq, Repr

/-- The struct `drm_crtc`. The fields `cond` and `mutex` have no content of
their own: every function below that the source runs under the mutex is one
atomic step. `egl_ctx` records whether the pointer is non-NULL. -/
structure drm_crtc where
  crtc_id : Nat
  crtc_pipe : Nat
  plane_id : Nat
  prefer_plane_id : Nat
  cursor_next : drm_cursor_state
  cursor_curr : drm_cursor_state
  thread : drm_thread_pc
  state : drm_thread_state
  egl_ctx : Bool
  use_afbc_modifier : Int
  blocked : Int
  deriving DecidableEq, Repr

/-- The struct `drm_ctx` once `drm_get_ctx` has returned it (`inited = 1`).
`crtcs` holds the first `num_crtcs` entries of the array, `planes` the
`count_planes` ids of `pres->planes`. -/
structure drm_ctx where
  crtcs : List drm_crtc
  planes : List Nat
  prefer_afbc_modifier : Int
  allow_overlay : Int
  num_surfaces : Int
  deriving DecidableEq, Repr

/-- The object `drmModeCrtc` as far as the source reads it. -/
structure drmModeCrtc where
  crtc_id : Nat
  width : Nat
  height : Nat
  deriving DecidableEq, Repr

/-- The object `drmModePropertyRes` as far as the source reads it. -/
structure drmModeProperty where
  name : String
  values : List Nat
  deriving DecidableEq, Repr

/-- The struct `drm_plane`: the plane id, `plane->possible_crtcs`, and the
property list `props` as pairs `(props[i], prop_values[i])`. -/
structure drm_plane where
  plane_id : Nat
  possible_crtcs : Nat
  props : List (Nat × Nat)
  deriving DecidableEq, Repr

/-- The read-only kernel interface: each field is the libdrm query of the same
name, `none` standing for a NULL result. `drmModeGetPlane` gives
`possible_crtcs`, `drmModeObjectGetProperties` the pairs of property id and
value, `drmModeGetPropertyBlob` the modifiers of an `IN_FORMATS` blob. -/
structure drm_kernel where
  drmModeGetCrtc : Nat → Option drmModeCrtc
  drmModeGetPlane : Nat → Option Nat
  drmModeObjectGetProperties : Nat → Option (List (Nat × Nat))
  drmModeGetProperty : Nat → Option drmModeProperty
  drmModeGetPropertyBlob : Nat → Option (List Nat)

/-- What the hardware and the buffer converter answer while one request
executes: whether `egl_init_ctx` returns a context, the framebuffer handle
`egl_convert_fb` returns (0 on failure) and the return value of the
`drmModeSetPlane` that commits the request. -/
structure hw_env where
  egl_init_ctx : Bool
  egl_convert_fb : Nat
  drmModeSetPlane : Int
  deriving DecidableEq, Repr

/-- The calls that change the hardware or the converter, with the arguments
the source passes: `drmModeSetPlane fd plane_id crtc_id fb 0 x y w h 0 0 (w<<16) (h<<16)`,
`drmModeRmFB fd fb`, `egl_init_ctx`, `egl_convert_fb` together with the handle
it returned, and `egl_free_ctx`. -/
inductive hw_call where
  | drmModeSetPlane (plane_id crtc_id fb : Nat) (x y w h : Int)
  | drmModeRmFB (fb : Nat)
  | egl_init_ctx (width height : Int) (afbc : Bool)
  | egl_convert_fb (handle : Nat) (width height off_x off_y : Int) (fb : Nat)
  | egl_free_ctx
  deriving DecidableEq, Repr

/-! ## Kernel queries -/

/-- The function `drm_plane_get_prop`: index of the first property whose name
is `name`. -/
def drm_plane_get_prop (k : drm_kernel) (name : String) : List (Nat × Nat) → Nat → Option Nat
  | [], _ => none
  | p :: rest, i =>
    match k.drmModeGetProperty p.1 with
    | some prop => if prop.name = name then some i else drm_plane_get_prop k name rest (i + 1)
    | none => drm_plane_get_prop k name rest (i + 1)

/-- The function `drm_plane_get_prop_value`; `none` is the return value -1. -/
def drm_plane_get_prop_value (k : drm_kernel) (plane : drm_plane) (name : String) : Option Nat :=
  match drm_plane_get_prop k name plane.props 0 with
  | none => none
  | some prop_idx => (plane.props.get? prop_idx).map Prod.snd

/-- The function `drm_get_plane`; `none` is NULL. -/
def drm_get_plane (k : drm_kernel) (plane_id : Nat) : Option drm_plane :=
  match k.drmModeGetPlane plane_id with
  | none => none
  | some possible_crtcs =>
    match k.drmModeObjectGetProperties plane_id with
    | none => none
    | some props => some { plane_id := plane_id, possible_crtcs := possible_crtcs, props := props }

/-- The function `drm_plane_has_afbc`: 0 when the `IN_FORMATS` blob lists
`DRM_AFBC_MODIFIER`, -1 otherwise. -/
def drm_plane_has_afbc (k : drm_kernel) (plane : drm_plane) : Int :=
  match drm_plane_get_prop_value k plane "IN_FORMATS" with
  | none => -1
  | some value =>
    match k.drmModeGetPropertyBlob value with
    | none => -1
    | some modifiers => if modifiers.any (fun m => m == DRM_AFBC_MODIFIER) then 0 else -1

/-- The function `drm_crtc_size`: `none` is the return value -1, `some (w, h)`
the return value 0 with `*width = w` and `*height = h`. -/
def drm_crtc_size (k : drm_kernel) (crtc_id : Nat) : Option (Int × Int) :=
  match k.drmModeGetCrtc crtc_id with
  | none => none
  | some c =>
    if c.width ≠ 0 ∧ c.height ≠ 0 then some (to_int32 c.width, to_int32 c.height) else none

/-- The loop of `drm_get_crtc` over `ctx->crtcs[i..]`. -/
def drm_get_crtc_loop (k : drm_kernel) (crtc_id : Nat) : List drm_crtc → Nat → Option Nat
  | [], _ => none
  | crtc :: rest, i =>
    if crtc_id = 0 ∧ drm_crtc_size k crtc.crtc_id = none then
      drm_get_crtc_loop k crtc_id rest (i + 1)
    else if crtc.blocked ≠ 0 then
      drm_get_crtc_loop k crtc_id rest (i + 1)
    else if crtc_id = 0 ∨ crtc.crtc_id = crtc_id then
      some i
    else
      drm_get_crtc_loop k crtc_id rest (i + 1)

/-- The function `drm_get_crtc`: the index in `ctx->crtcs` of the pipe it
returns, `none` for NULL. -/
def drm_get_crtc (k : drm_kernel) (ctx : drm_ctx) (crtc_id : Nat) : Option Nat :=
  drm_get_crtc_loop k crtc_id ctx.crtcs 0

/-! ## Plane binding -/

/-- Store `crtc` back into `ctx->crtcs[i]`. -/
def drm_ctx.set_crtc (ctx : drm_ctx) (i : Nat) (crtc : drm_crtc) : drm_ctx :=
  { ctx with crtcs := ctx.crtcs.set i crtc }

/-- The field `plane_id` of `ctx->crtcs[i]` (0 when there is no such pipe). -/
def drm_ctx.plane_id_of (ctx : drm_ctx) (i : Nat) : Nat :=
  match ctx.crtcs.get? i with
  | none => 0
  | some crtc => crtc.plane_id

/-- The function `drm_crtc_bind_plane(ctx, &ctx->crtcs[i], plane_id, use_afbc,
allow_overlay)`: the return value and the context afterwards. The pointer
`crtc` of the source always points into `ctx->crtcs`; an index outside the
list gives -1 and no change. The mask `1 << crtc->crtc_pipe` is taken in 32
bits. The two calls of `drm_plane_set_prop_max`, which raise the z-order of
the plane in the kernel and whose result the source ignores, change neither
the context nor the return value and are left out. -/
def drm_crtc_bind_plane (k : drm_kernel) (ctx : drm_ctx) (i : Nat) (plane_id : Nat)
    (use_afbc allow_overlay : Int) : Int × drm_ctx :=
  match ctx.crtcs.get? i with
  | none => (-1, ctx)
  | some crtc =>
    -- CRTC already assigned
    if crtc.plane_id ≠ 0 then (1, ctx)
    -- Plane already assigned
    else if ctx.crtcs.any (fun c => c.plane_id == plane_id) then (-1, ctx)
    else
      match drm_get_plane k plane_id with
      | none => (-1, ctx)
      | some plane =>
        -- Not for this CRTC
        if plane.possible_crtcs &&& ((1 <<< crtc.crtc_pipe) % 4294967296) = 0 then (-1, ctx)
        else
          -- Not using primary planes
          match drm_plane_get_prop_value k plane "type" with
          | none => (-1, ctx)
          | some value =>
            if value = DRM_PLANE_TYPE_PRIMARY then (-1, ctx)
            -- Check for overlay plane
            else if allow_overlay = 0 ∧ value = DRM_PLANE_TYPE_OVERLAY then (-1, ctx)
            -- Check for AFBC modifier
            else if drm_plane_has_afbc k plane ≥ 0 then
              (0, ctx.set_crtc i { crtc with use_afbc_modifier := 1, plane_id := plane.plane_id })
            else if use_afbc ≠ 0 then (-1, ctx)
            else (0, ctx.set_crtc i { crtc with plane_id := plane.plane_id })

/-- One loop of `drm_crtc_prepare`:
`for (...; !crtc->plane_id && ...; ...) drm_crtc_bind_plane(ctx, crtc, planes[..], use_afbc, allow_overlay)`
over the given plane ids, in the given order. -/
def drm_crtc_prepare_loop (k : drm_kernel) (i : Nat) (use_afbc allow_overlay : Int) :
    List Nat → drm_ctx → drm_ctx
  | [], ctx => ctx
  | plane_id :: rest, ctx =>
    if ctx.plane_id_of i ≠ 0 then ctx
    else
      drm_crtc_prepare_loop k i use_afbc allow_overlay rest
        (drm_crtc_bind_plane k ctx i plane_id use_afbc allow_overlay).2

/-- The thread creation at the end of `drm_crtc_prepare`: the worker of pipe
`i` starts and blocks at the top of its loop. -/
def drm_ctx.start_thread (ctx : drm_ctx) (i : Nat) : drm_ctx :=
  match ctx.crtcs.get? i with
  | none => ctx
  | some crtc => ctx.set_crtc i { crtc with thread := drm_thread_pc.waiting }

/-- The function `drm_crtc_prepare(ctx, &ctx->crtcs[i])`. The overlay fallback
loop starts at `i = count_planes - 1` and runs while `!crtc->plane_id && i`:
it visits the indices `count_planes - 1` down to 1. With an empty plane list
it starts at -1 and reads `planes[-1]`; the result is then `none`, as it is
for an index `i` that names no pipe. -/
def drm_crtc_prepare (k : drm_kernel) (ctx : drm_ctx) (i : Nat) : Option (Int × drm_ctx) :=
  match ctx.crtcs.get? i with
  | none => none
  | some crtc =>
    -- CRTC already assigned
    if crtc.plane_id ≠ 0 then some (1, ctx)
    else
      -- Try specific plane
      let ctx1 := if crtc.prefer_plane_id ≠ 0 then
          (drm_crtc_bind_plane k ctx i crtc.prefer_plane_id 0 1).2 else ctx
      -- Try cursor plane
      let ctx2 := drm_crtc_prepare_loop k i 0 0 ctx.planes ctx1
      -- Try AFBC plane
      let ctx3 := if ctx.prefer_afbc_modifier ≠ 0 then
          drm_crtc_prepare_loop k i 1 0 ctx.planes ctx2 else ctx2
      if ctx.allow_overlay ≠ 0 ∧ ctx3.plane_id_of i = 0 ∧ ctx.planes = [] then none
      else
        -- Fallback to any available overlay plane
        let ctx4 := if ctx.allow_overlay ≠ 0 then
            drm_crtc_prepare_loop k i 0 1 (ctx.planes.drop 1).reverse ctx3 else ctx3
        if ctx4.plane_id_of i = 0 then some (-1, ctx4)
        else some (0, ctx4.start_thread i)

/-! ## The worker -/

/-- The function `drm_crtc_update_cursor`; `cursor_state = none` is the NULL
of `drm_crtc_disable_cursor`. `set_plane` is what the committing
`drmModeSetPlane` returns (the return value of the disabling call is ignored
by the source). Result: the return value, the pipe afterwards and the calls
issued, in order. -/
def drm_crtc_update_cursor (set_plane : Int) (crtc : drm_crtc)
    (cursor_state : Option drm_cursor_state) : Int × drm_crtc × List hw_call :=
  let old_fb := crtc.cursor_curr.fb
  match cursor_state with
  | none =>
    -- Disable
    (0, { crtc with cursor_curr := drm_cursor_state.zero },
      if old_fb ≠ 0 then
        [hw_call.drmModeSetPlane crtc.plane_id 0 0 0 0 0 0, hw_call.drmModeRmFB old_fb]
      else [])
  | some cs =>
    -- Unchanged
    if crtc.cursor_curr.fb = cs.fb ∧ crtc.cursor_curr.x = cs.x ∧ crtc.cursor_curr.y = cs.y then
      (0, { crtc with cursor_curr := cs }, [])
    else
      (set_plane, { crtc with cursor_curr := cs },
        hw_call.drmModeSetPlane crtc.plane_id crtc.crtc_id cs.fb cs.x cs.y
            crtc.cursor_curr.width crtc.cursor_curr.height ::
          (if old_fb ≠ 0 ∧ old_fb ≠ cs.fb then [hw_call.drmModeRmFB old_fb] else []))

/-- The function `drm_crtc_create_fb`. Result: the return value, the pipe
afterwards, `*cursor_state` afterwards and the calls issued. -/
def drm_crtc_create_fb (env : hw_env) (crtc : drm_crtc) (cursor_state : drm_cursor_state) :
    Int × drm_crtc × drm_cursor_state × List hw_call :=
  let init_call := hw_call.egl_init_ctx cursor_state.width cursor_state.height
    (decide (crtc.use_afbc_modifier ≠ 0))
  let convert_call := hw_call.egl_convert_fb cursor_state.handle cursor_state.width
    cursor_state.height cursor_state.off_x cursor_state.off_y env.egl_convert_fb
  if crtc.egl_ctx = false ∧ env.egl_init_ctx = false then
    (-1, crtc, cursor_state, [init_call])
  else
    let calls := (if crtc.egl_ctx = false then [init_call] else []) ++ [convert_call]
    let crtc1 := { crtc with egl_ctx := true }
    let cs1 := { cursor_state with fb := env.egl_convert_fb }
    if env.egl_convert_fb = 0 then (-1, crtc1, cs1, calls)
    else (0, crtc1, cs1, calls)

/-- The first critical section of the loop of `drm_crtc_thread_fn`: a waiting
worker that finds the state `PENDING` copies `cursor_next` and sets `BUSY`. -/
def drm_crtc_thread_fetch (crtc : drm_crtc) : drm_crtc :=
  if crtc.thread = drm_thread_pc.waiting ∧ crtc.state = drm_thread_state.PENDING then
    { crtc with thread := drm_thread_pc.running crtc.cursor_next, state := drm_thread_state.BUSY }
  else crtc

/-- The sequence
`if (drm_crtc_create_fb(..) < 0) goto error; if (drm_crtc_update_cursor(..) < 0) goto error;`
that `drm_crtc_thread_fn` runs for a set request with a buffer and for an edge
move: `true` when control reaches `next:`, `false` when it reaches `error:`. -/
def drm_crtc_thread_create_update (env : hw_env) (crtc : drm_crtc)
    (cursor_state : drm_cursor_state) : Bool × drm_crtc × List hw_call :=
  let c := drm_crtc_create_fb env crtc cursor_state
  if c.1 < 0 then (false, c.2.1, c.2.2.2)
  else
    let r := drm_crtc_update_cursor env.drmModeSetPlane c.2.1 (some c.2.2.1)
    (decide (¬ r.1 < 0), r.2.1, c.2.2.2 ++ r.2.2)

/-- The body of the loop of `drm_crtc_thread_fn` between the unlock and the
labels: `true` when control reaches `next:`, `false` when it reaches
`error:`. -/
def drm_crtc_thread_body (env : hw_env) (crtc : drm_crtc) (cursor_state : drm_cursor_state) :
    Bool × drm_crtc × List hw_call :=
  if cursor_state.reload ≠ 0 then
    -- Handle set-cursor
    if cursor_state.handle = 0 then
      let r := drm_crtc_update_cursor env.drmModeSetPlane crtc none
      (true, r.2.1, r.2.2)
    else
      drm_crtc_thread_create_update env crtc cursor_state
  else
    -- Handle move-cursor
    if crtc.cursor_curr.off_x ≠ cursor_state.off_x ∨
        crtc.cursor_curr.off_y ≠ cursor_state.off_y then
      -- Edge moving
      drm_crtc_thread_create_update env crtc cursor_state
    else if crtc.cursor_curr.fb = 0 then
      -- Pre-moving
      (true, { crtc with cursor_curr := cursor_state }, [])
    else
      -- Normal moving
      let r := drm_crtc_update_cursor env.drmModeSetPlane crtc
        (some { cursor_state with fb := crtc.cursor_curr.fb })
      (decide (¬ r.1 < 0), r.2.1, r.2.2)

/-- The label `next:` of `drm_crtc_thread_fn`: the state becomes `IDLE` unless
a newer request is `PENDING`, and the worker is back at the top of its loop. -/
def drm_crtc_thread_next (crtc : drm_crtc) : drm_crtc :=
  { crtc with
    state := if crtc.state ≠ drm_thread_state.PENDING then drm_thread_state.IDLE else crtc.state,
    thread := drm_thread_pc.waiting }

/-- The label `error:` of `drm_crtc_thread_fn`. -/
def drm_crtc_thread_error (crtc : drm_crtc) : drm_crtc × List hw_call :=
  let r := drm_crtc_update_cursor 0 crtc none
  ({ r.2.1 with state := drm_thread_state.ERROR, thread := drm_thread_pc.exited },
    (if crtc.egl_ctx then [hw_call.egl_free_ctx] else []) ++ r.2.2)

/-- A worker that holds a request executes it and reports: the loop body
followed by `next:` or `error:`. Any other worker does nothing. The body runs
without the mutex but touches only `cursor_curr` and `egl_ctx`, which no
producer writes, so it is taken together with the critical section that
follows it. -/
def drm_crtc_thread_exec (env : hw_env) (crtc : drm_crtc) : drm_crtc × List hw_call :=
  match crtc.thread with
  | drm_thread_pc.running cursor_state =>
    let b := drm_crtc_thread_body env crtc cursor_state
    if b.1 then (drm_crtc_thread_next b.2.1, b.2.2)
    else
      let e := drm_crtc_thread_error b.2.1
      (e.1, b.2.2 ++ e.2)
  | _ => (crtc, [])

/-- What the worker of a pipe does when it is scheduled next. -/
def drm_crtc_thread_step (env : hw_env) (crtc : drm_crtc) : drm_crtc × List hw_call :=
  match crtc.thread with
  | drm_thread_pc.waiting => (drm_crtc_thread_fetch crtc, [])
  | _ => drm_crtc_thread_exec env crtc

/-! ## The request protocol -/

/-- The critical section of `drm_set_cursor` before the wait (from the
`pthread_mutex_lock` to the `pthread_cond_signal`): -1 and no write when the
state is `ERROR`, otherwise the request is written and the state is
`PENDING`. -/
def drm_set_cursor_request (crtc : drm_crtc) (handle width height : Nat) : Int × drm_crtc :=
  if crtc.state = drm_thread_state.ERROR then (-1, crtc)
  else
    (0, { crtc with
      cursor_next := { crtc.cursor_next with
        reload := 1, fb := 0, handle := handle,
        width := to_int32 width, height := to_int32 height },
      state := drm_thread_state.PENDING })

/-- The wait of `drm_set_cursor`,
`while (crtc->state != IDLE && crtc->state != ERROR) pthread_cond_wait(..)`,
with no other producer on the pipe: while the caller is blocked the worker
takes its next step, with the answers `envs n` of the hardware when `n` more
steps are allowed. `none` when the state is neither `IDLE` nor `ERROR` after
`fuel` steps of the worker. Result: the pipe when the caller wakes up and the
calls issued meanwhile. -/
def drm_set_cursor_wait (envs : Nat → hw_env) : Nat → drm_crtc → Option (drm_crtc × List hw_call)
  | fuel, crtc =>
    if crtc.state = drm_thread_state.IDLE ∨ crtc.state = drm_thread_state.ERROR then
      some (crtc, [])
    else
      match fuel with
      | 0 => none
      | n + 1 =>
        let s := drm_crtc_thread_step (envs n) crtc
        match drm_set_cursor_wait envs n s.1 with
        | none => none
        | some r => some (r.1, s.2 ++ r.2)

/-- The function `drm_set_cursor` on a context `drm_get_ctx` returned.
Result: the return value, the context afterwards and the calls issued; `none`
when `drm_crtc_prepare` has no result or the wait does not end within `fuel`
steps of the worker. -/
def drm_set_cursor (k : drm_kernel) (envs : Nat → hw_env) (fuel : Nat) (ctx : drm_ctx)
    (crtc_id handle width height : Nat) : Option (Int × drm_ctx × List hw_call) :=
  match drm_get_crtc k ctx crtc_id with
  | none => some (-1, ctx, [])
  | some i =>
    match drm_crtc_prepare k ctx i with
    | none => none
    | some p =>
      if p.1 < 0 then some (-1, p.2, [])
      else
        match p.2.crtcs.get? i with
        | none => none
        | some crtc =>
          let q := drm_set_cursor_request crtc handle width height
          if q.1 < 0 then some (-1, p.2, [])
          else
            match drm_set_cursor_wait envs fuel q.2 with
            | none => none
            | some r =>
              some (if r.1.state = drm_thread_state.ERROR then -1 else 0,
                p.2.set_crtc i r.1, r.2)

/-- The clamping of `drm_move_cursor`, from `off_x = off_y = 0` to the last
`if`, for the pipe size `(width, height)` that `drm_crtc_size` stored: the
values of `x`, `y`, `off_x`, `off_y` afterwards. -/
def drm_move_cursor_clamp (crtc : drm_crtc) (width height x y : Int) : Int × Int × Int × Int :=
  let off_x : Int := 0
  let off_y : Int := 0
  -- For edge moving
  let width := to_int32 (width - crtc.cursor_curr.width)
  let height := to_int32 (height - crtc.cursor_curr.height)
  let off_x := if x < 0 then x else off_x
  let x := if x < 0 then 0 else x
  let off_y := if y < 0 then y else off_y
  let y := if y < 0 then 0 else y
  let off_x := if x > width then to_int32 (x - width) else off_x
  let x := if x > width then width else x
  let off_y := if y > height then to_int32 (y - height) else off_y
  let y := if y > height then height else y
  (x, y, off_x, off_y)

/-- The part of `drm_move_cursor` after `drm_crtc_size` returned the pipe size
`(width, height)`: the clamping against the size of the current cursor and the
critical section. -/
def drm_move_cursor_request (crtc : drm_crtc) (width height x y : Int) : Int × drm_crtc :=
  let c := drm_move_cursor_clamp crtc width height x y
  if crtc.state = drm_thread_state.ERROR then (-1, crtc)
  else
    (0, { crtc with
      cursor_next := { crtc.cursor_next with
        reload := 0, fb := 0, x := c.1, y := c.2.1, off_x := c.2.2.1, off_y := c.2.2.2 },
      state := drm_thread_state.PENDING })

/-- The function `drm_move_cursor` on a context `drm_get_ctx` returned.
Result: the return value and the context afterwards; `none` when
`drm_crtc_prepare` has no result. The function returns without waiting for
the worker, so it issues none of the calls of `hw_call` itself. -/
def drm_move_cursor (k : drm_kernel) (ctx : drm_ctx) (crtc_id : Nat) (x y : Int) :
    Option (Int × drm_ctx) :=
  match drm_get_crtc k ctx crtc_id with
  | none => some (-1, ctx)
  | some i =>
    match drm_crtc_prepare k ctx i with
    | none => none
    | some p =>
      if p.1 < 0 then some (-1, p.2)
      else
        match p.2.crtcs.get? i with
        | none => none
        | some crtc =>
          match drm_crtc_size k crtc.crtc_id with
          | none => some (-1, p.2)
          | some size =>
            let q := drm_move_cursor_request crtc size.1 size.2 x y
            some (q.1, p.2.set_crtc i q.2)

/-- The hook `drmModeSetCursor2`: it returns `-EINVAL` and touches nothing. -/
def drmModeSetCursor2 (_fd : Int) (_crtcId _bo_handle _width _height : Nat)
    (_hot_x _hot_y : Int) : Int :=
  -EINVAL

/-! ## Pipe discovery -/

/-- An entry of `ctx->crtcs` before `drm_get_ctx` fills it: the context is a
zero-initialised static object. -/
def drm_crtc.zero : drm_crtc :=
  { crtc_id := 0, crtc_pipe := 0, plane_id := 0, prefer_plane_id := 0,
    cursor_next := drm_cursor_state.zero, cursor_curr := drm_cursor_state.zero,
    thread := drm_thread_pc.not_started, state := drm_thread_state.IDLE,
    egl_ctx := false, use_afbc_modifier := 0, blocked := 0 }

/-- The loop of `drm_get_ctx` that fills the local array `prefer_planes`,
`for (i = 0; config && i < ctx->res->count_crtcs; i++)`: `config` is the list
of the numbers `atoi` reads from the comma-separated fields that are left
(empty for NULL). Result: the writes `prefer_planes[index] = value`, in
order. -/
def drm_get_ctx_prefer_planes : List Nat → Nat → Nat → List (Nat × Nat)
  | [], _, _ => []
  | value :: config, i, count_crtcs =>
    if i < count_crtcs then
      (i, value) :: drm_get_ctx_prefer_planes config (i + 1) count_crtcs
    else []

/-- The array `prefer_planes` after the given writes: zero where nothing was
written. -/
def prefer_planes_at (writes : List (Nat × Nat)) (i : Nat) : Nat :=
  match writes.reverse.find? (fun w => w.1 == i) with
  | none => 0
  | some w => w.2

/-- The loop "Fetch all CRTCs" of `drm_get_ctx` from index `i` on, with
`res_crtcs` the ids `ctx->res->crtcs[i..]` that are left and `num_crtcs` the
counter so far. Result: `ctx->num_crtcs` after the loop and the writes
`ctx->crtcs[index] = entry`, in order. The source does not compare
`num_crtcs` with `DRM_MAX_CRTCS`. -/
def drm_get_ctx_crtcs (k : drm_kernel) (prefer_planes : Nat → Nat) (prefer_plane : Nat) :
    List Nat → Nat → Nat → Nat × List (Nat × drm_crtc)
  | [], _, num_crtcs => (num_crtcs, [])
  | id :: res_crtcs, i, num_crtcs =>
    match k.drmModeGetCrtc id with
    | none => drm_get_ctx_crtcs k prefer_planes prefer_plane res_crtcs (i + 1) num_crtcs
    | some c =>
      let r := drm_get_ctx_crtcs k prefer_planes prefer_plane res_crtcs (i + 1) (num_crtcs + 1)
      (r.1,
        (num_crtcs,
          { drm_crtc.zero with
            crtc_id := c.crtc_id, crtc_pipe := i,
            prefer_plane_id := if prefer_planes i ≠ 0 then prefer_planes i else prefer_plane })
          :: r.2)

/-- The pipe discovery of `drm_get_ctx`, from "Allow specifying prefer planes"
to the end of "Fetch all CRTCs", for the resource list `res_crtcs`
(`count_crtcs` is its length), the configured list `config` of preferred
planes and the single preferred plane `prefer_plane`. Result: `num_crtcs`,
the writes to `ctx->crtcs` and the writes to `prefer_planes`. -/
def drm_get_ctx_discover (k : drm_kernel) (config : List Nat) (prefer_plane : Nat)
    (res_crtcs : List Nat) : Nat × List (Nat × drm_crtc) × List (Nat × Nat) :=
  let writes := drm_get_ctx_prefer_planes config 0 res_crtcs.length
  let r := drm_get_ctx_crtcs k (prefer_planes_at writes) prefer_plane res_crtcs 0 0
  (r.1, r.2, writes)

/-! ## Interleavings on one pipe -/

/-- What can happen next on a prepared pipe, each an atomic step: a caller
runs the critical section of `drm_set_cursor`; a caller runs `drm_move_cursor`
from the clamping on, the pipe size being `(width, height)`; the worker takes
its next step with the hardware answering `env`. -/
inductive pipe_event where
  | set_request (handle width height : Nat)
  | move_request (width height x y : Int)
  | thread_step (env : hw_env)
  deriving DecidableEq, Repr

/-- One event on a pipe: the pipe afterwards and the calls issued. -/
def pipe_step (crtc : drm_crtc) : pipe_event → drm_crtc × List hw_call
  | pipe_event.set_request handle width height =>
    ((drm_set_cursor_request crtc handle width height).2, [])
  | pipe_event.move_request width height x y =>
    ((drm_move_cursor_request crtc width height x y).2, [])
  | pipe_event.thread_step env => drm_crtc_thread_step env crtc

/-- A sequence of events on a pipe: the pipe afterwards and all calls issued,
in order. -/
def pipe_run (crtc : drm_crtc) : List pipe_event → drm_crtc × List hw_call
  | [] => (crtc, [])
  | e :: es =>
    let s := pipe_step crtc e
    let r := pipe_run s.1 es
    (r.1, s.2 ++ r.2)

/-! ## Framebuffer bookkeeping -/

/-- What a sequence of calls did with framebuffer handles: the handles
`egl_convert_fb` returned (`created`), those of them not yet passed to
`drmModeRmFB` (`live`), the handles passed to `drmModeRmFB` (`released`), the
framebuffer of the latest `drmModeSetPlane` call (`plane_fb`), whether the
converter returned a handle it had returned before (`reused`), and whether a
handle was released while the latest `drmModeSetPlane` call issued was for
that very handle, that is, before a commit that stops referencing it
(`premature`). -/
structure fb_ledger where
  created : List Nat
  live : List Nat
  released : List Nat
  plane_fb : Nat
  reused : Bool
  premature : Bool
  deriving DecidableEq, Repr

/-- Nothing was created, released or committed yet. -/
def fb_ledger.empty : fb_ledger :=
  { created := [], live := [], released := [], plane_fb := 0, reused := false,
    premature := false }

/-- The bookkeeping after one more call. -/
def fb_ledger.step (L : fb_ledger) : hw_call → fb_ledger
  | hw_call.egl_convert_fb _ _ _ _ _ fb =>
    if fb = 0 then L
    else
      { L with
        created := fb :: L.created, live := fb :: L.live,
        reused := L.reused || decide (fb ∈ L.created) }
  | hw_call.drmModeRmFB fb =>
    { L with
      live := L.live.erase fb, released := fb :: L.released,
      premature := L.premature || decide (L.plane_fb = fb) }
  | hw_call.drmModeSetPlane _ _ fb _ _ _ _ => { L with plane_fb := fb }
  | hw_call.egl_init_ctx _ _ _ => L
  | hw_call.egl_free_ctx => L

/-- The bookkeeping after a sequence of calls. -/
def fb_ledger.run (L : fb_ledger) (calls : List hw_call) : fb_ledger :=
  calls.foldl fb_ledger.step L

/-- The bookkeeping `L` fits a pipe whose committed framebuffer is `g`: the
live handles are exactly `g` when `g` is not 0 and none otherwise, no handle
was released twice or prematurely, the latest plane commit was for `g`, the
converter never repeated a handle, and every released handle was created and
is not `g`. -/
def fb_ledger.owns (L : fb_ledger) (g : Nat) : Prop :=
  L.live = (if g ≠ 0 then [g] else []) ∧ L.released.Nodup ∧ L.premature = false ∧
    L.plane_fb = g ∧
    L.reused = false ∧ 0 ∉ L.created ∧ (g ≠ 0 → g ∈ L.created) ∧
    ∀ f ∈ L.released, f ∈ L.created ∧ f ≠ g

/-- The bookkeeping `L` fits the pipe: it fits the committed framebuffer
`cursor_curr.fb`, and neither the request slot nor the request the worker
holds carries a framebuffer handle. -/
def fb_ledger.fits (L : fb_ledger) (crtc : drm_crtc) : Prop :=
  L.owns crtc.cursor_curr.fb ∧ crtc.cursor_next.fb = 0 ∧
    ∀ cs, crtc.thread = drm_thread_pc.running cs → cs.fb = 0

/-! ## Specification predicates -/

/-- A value of C type `int`. -/
def is_int32 (v : Int) : Prop := -2147483648 ≤ v ∧ v < 2147483648

/-- No two distinct pipes of the context record the same non-zero plane. -/
def planes_unique (ctx : drm_ctx) : Prop :=
  ∀ i < ctx.crtcs.length, ∀ j < ctx.crtcs.length,
    i ≠ j → ctx.plane_id_of i ≠ 0 → ctx.plane_id_of i ≠ ctx.plane_id_of j

instance (ctx : drm_ctx) : Decidable (planes_unique ctx) := by
  unfold planes_unique; infer_instance

/-- The "type" property of plane `plane_id` reads as primary: the plane can be
queried and `drm_plane_get_prop_value(.., "type", ..)` gives
`DRM_PLANE_TYPE_PRIMARY`. -/
def plane_is_primary (k : drm_kernel) (plane_id : Nat) : Prop :=
  ∃ plane, drm_get_plane k plane_id = some plane ∧
    drm_plane_get_prop_value k plane "type" = some DRM_PLANE_TYPE_PRIMARY

/-- The rejection rules of plane binding in the words of the specification,
for a binding attempt of plane `plane_id` on pipe `i` with the given flags:
the plane id is not 0 and (a) no other pipe records the plane, the plane can
be queried and (b) its supported-pipe bitmask contains the pipe, its type can
be read and (c) is not primary and (d) is not overlay unless overlay is
allowed for this attempt, and the plane declares compressed-layout support
if this attempt requires it. -/
def plane_passes (k : drm_kernel) (ctx : drm_ctx) (i plane_id : Nat)
    (use_afbc allow_overlay : Int) : Bool :=
  match ctx.crtcs.get? i with
  | none => false
  | some crtc =>
    decide (plane_id ≠ 0) &&
    decide (∀ j < ctx.crtcs.length, j ≠ i → ctx.plane_id_of j ≠ plane_id) &&
    match drm_get_plane k plane_id with
    | none => false
    | some plane =>
      decide (plane.possible_crtcs &&& ((1 <<< crtc.crtc_pipe) % 4294967296) ≠ 0) &&
      match drm_plane_get_prop_value k plane "type" with
      | none => false
      | some value =>
        decide (value ≠ DRM_PLANE_TYPE_PRIMARY) &&
        decide (value = DRM_PLANE_TYPE_OVERLAY → allow_overlay ≠ 0) &&
        decide (use_afbc ≠ 0 → drm_plane_has_afbc k plane ≥ 0)

/-! ## A concrete device

Used to evaluate the definitions: three planes, 31 (primary), 32 (overlay,
with the AFBC modifier in its `IN_FORMATS` blob) and 33 (cursor), all usable on
pipes 0 and 1; property 1 is "type", 2 is "IN_FORMATS", 3 is "zpos"; pipe 50
is 1920x1080 and pipe 51 is switched off. -/

/-- The kernel of the concrete device. -/
def example_kernel : drm_kernel where
  drmModeGetCrtc := fun id =>
    if id = 50 then some { crtc_id := 50, width := 1920, height := 1080 }
    else if id = 51 then some { crtc_id := 51, width := 0, height := 0 }
    else none
  drmModeGetPlane := fun id => if id = 31 ∨ id = 32 ∨ id = 33 then some 3 else none
  drmModeObjectGetProperties := fun id =>
    if id = 31 then some [(3, 0), (1, 1)]
    else if id = 32 then some [(1, 0), (2, 100)]
    else if id = 33 then some [(1, 2)]
    else none
  drmModeGetProperty := fun id =>
    if id = 1 then some { name := "type", values := [0, 1, 2] }
    else if id = 2 then some { name := "IN_FORMATS", values := [] }
    else if id = 3 then some { name := "zpos", values := [0, 1, 2] }
    else none
  drmModeGetPropertyBlob := fun id => if id = 100 then some [0, DRM_AFBC_MODIFIER] else none

/-- A pipe as `drm_get_ctx` leaves it (everything else zero), with the given
plane already recorded. -/
def example_crtc (crtc_id crtc_pipe plane_id prefer_plane_id : Nat) : drm_crtc :=
  { crtc_id := crtc_id, crtc_pipe := crtc_pipe, plane_id := plane_id,
    prefer_plane_id := prefer_plane_id,
    cursor_next := drm_cursor_state.zero, cursor_curr := drm_cursor_state.zero,
    thread := if plane_id = 0 then drm_thread_pc.not_started else drm_thread_pc.waiting,
    state := drm_thread_state.IDLE, egl_ctx := false, use_afbc_modifier := 0, blocked := 0 }

/-- The context of the concrete device: pipe 50 not yet prepared, with
preferred plane 32; pipe 51 prepared on plane 33. -/
def example_ctx : drm_ctx :=
  { crtcs := [example_crtc 50 0 0 32, example_crtc 51 1 33 0],
    planes := [31, 32, 33], prefer_afbc_modifier := 0, allow_overlay := 0, num_surfaces := 8 }

/-- The context of the concrete device later on: pipe 50 is prepared on plane
32 and shows a 64x64 cursor, framebuffer 7 made from buffer 5, at (10, 20);
its worker waits for the next request. -/
def example_ctx_cursor : drm_ctx :=
  { crtcs := [
      { example_crtc 50 0 32 32 with
        cursor_next := { drm_cursor_state.zero with
          handle := 5, width := 64, height := 64, x := 10, y := 20 },
        cursor_curr := {
          handle := 5, fb := 7, width := 64, height := 64, x := 10, y := 20,
          off_x := 0, off_y := 0, reload := 0 },
        egl_ctx := true, use_afbc_modifier := 1 },
      example_crtc 51 1 33 0],
    planes := [31, 32, 33], prefer_afbc_modifier := 0, allow_overlay := 0, num_surfaces := 8 }

/-- The context of the concrete device after a failed commit on pipe 50: the
pipe is in `ERROR`, its worker has exited and nothing is committed. -/
def example_ctx_error : drm_ctx :=
  { crtcs := [
      { example_crtc 50 0 32 32 with
        cursor_next := { drm_cursor_state.zero with
          handle := 5, width := 64, height := 64, x := 10, y := 20, reload := 1 },
        thread := drm_thread_pc.exited, state := drm_thread_state.ERROR,
        egl_ctx := true, use_afbc_modifier := 1 },
      example_crtc 51 1 33 0],
    planes := [31, 32, 33], prefer_afbc_modifier := 0, allow_overlay := 0, num_surfaces := 8 }

/-- A hardware whose plane commits fail with `-EINVAL`. -/
def example_env_failing : hw_env :=
  { egl_init_ctx := true, egl_convert_fb := 9, drmModeSetPlane := -22 }

/-- A hardware that accepts every commit; the converter returns handle 9. -/
def example_env : hw_env :=
  { egl_init_ctx := true, egl_convert_fb := 9, drmModeSetPlane := 0 }

/-- The kernel of a device with nine pipes, 50 to 58, all of which can be
queried. -/
def example_kernel_wide : drm_kernel :=
  { example_kernel with
    drmModeGetCrtc := fun id =>
      if 50 ≤ id ∧ id ≤ 58 then some { crtc_id := id, width := 1920, height := 1080 }
      else none }

/-- A session on pipe 50 of the concrete device: a 64x64 cursor is set from
buffer 5 (framebuffer 9), moved 5 pixels beyond the left edge (framebuffer 10
replaces 9), moved back inside (framebuffer 11 replaces 10) and disabled. -/
def example_events : List pipe_event :=
  [ pipe_event.set_request 5 64 64,
    pipe_event.thread_step example_env,
    pipe_event.thread_step example_env,
    pipe_event.move_request 1920 1080 (-5) 0,
    pipe_event.thread_step { example_env with egl_convert_fb := 10 },
    pipe_event.thread_step { example_env with egl_convert_fb := 10 },
    pipe_event.move_request 1920 1080 100 100,
    pipe_event.thread_step { example_env with egl_convert_fb := 11 },
    pipe_event.thread_step { example_env with egl_convert_fb := 11 },
    pipe_event.set_request 0 0 0,
    pipe_event.thread_step example_env,
    pipe_event.thread_step example_env ]

/-- A hardware whose converter fails: `egl_convert_fb` returns 0. -/
def example_env_no_fb : hw_env :=
  { egl_init_ctx := true, egl_convert_fb := 0, drmModeSetPlane := 0 }

/-- A context in which overlay planes are allowed and the compressed layout
is preferred, with the given plane list: pipe 50 has neither a plane nor a
hint. -/
def example_ctx_overlay (planes : List Nat) : drm_ctx :=
  { crtcs := [example_crtc 50 0 0 0],
    planes := planes, prefer_afbc_modifier := 1, allow_overlay := 1, num_surfaces := 8 }

/-- A context in which the compressed layout is preferred and overlay planes
are not allowed, with the given plane list: pipe 50 has neither a plane nor a
hint. -/
def example_ctx_afbc (planes : List Nat) : drm_ctx :=
  { crtcs := [example_crtc 50 0 0 0],
    planes := planes, prefer_afbc_modifier := 1, allow_overlay := 0, num_surfaces := 8 }

/-- A pipe prepared on plane 32 with nothing committed and a move request to
5 pixels beyond the left edge in its slot. -/
def example_crtc_pre_moving : drm_crtc :=
  (drm_move_cursor_request (example_crtc 50 0 32 32) 1920 1080 (-5) 0).2

/-! ## Theorems -/

/-! ### Machine integers -/

theorem to_int32_of_is_int32 {v : Int} (h : is_int32 v) : to_int32 v = v := by
  unfold is_int32 at h
  unfold to_int32
  omega

theorem to_int32_is_int32 (v : Int) : is_int32 (to_int32 v) := by
  unfold is_int32 to_int32
  omega

/-! ### Plane binding -/

theorem drm_get_plane_plane_id {k : drm_kernel} {p : Nat} {plane : drm_plane}
    (h : drm_get_plane k p = some plane) : plane.plane_id = p := by
  unfold drm_get_plane at h
  split at h
  · cases h
  · split at h
    · cases h
    · cases h; rfl

theorem set_crtc_length (ctx : drm_ctx) (i : Nat) (c : drm_crtc) :
    (ctx.set_crtc i c).crtcs.length = ctx.crtcs.length := by
  simp [drm_ctx.set_crtc]

theorem lt_of_get?_eq_some {ctx : drm_ctx} {i : Nat} {crtc : drm_crtc}
    (h : ctx.crtcs.get? i = some crtc) : i < ctx.crtcs.length := by
  rcases Nat.lt_or_ge i ctx.crtcs.length with h1 | h1
  · exact h1
  · rw [List.get?_eq_none.mpr h1] at h; cases h

theorem set_crtc_get?_self {ctx : drm_ctx} {i : Nat} {crtc : drm_crtc} (c : drm_crtc)
    (h : ctx.crtcs.get? i = some crtc) : (ctx.set_crtc i c).crtcs.get? i = some c := by
  have hi : i < ctx.crtcs.length := lt_of_get?_eq_some h
  simp [drm_ctx.set_crtc, List.getElem?_set, hi]

theorem set_crtc_get?_ne (ctx : drm_ctx) {i j : Nat} (c : drm_crtc) (h : i ≠ j) :
    (ctx.set_crtc i c).crtcs.get? j = ctx.crtcs.get? j := by
  simp [drm_ctx.set_crtc, List.getElem?_set, h]

theorem set_crtc_same {ctx : drm_ctx} {i : Nat} {crtc : drm_crtc}
    (h : ctx.crtcs.get? i = some crtc) : ctx.set_crtc i crtc = ctx := by
  have hi : i < ctx.crtcs.length := lt_of_get?_eq_some h
  have : ctx.crtcs.set i crtc = ctx.crtcs := by
    apply List.ext_get?
    intro n
    by_cases hn : i = n
    · subst hn
      rw [List.get?_eq_getElem?] at h
      simp [List.getElem?_set, hi, h]
    · simp [List.getElem?_set, hn]
  cases ctx
  simp only [drm_ctx.set_crtc] at *
  simp [this]

/-- Every call of `drm_crtc_bind_plane` either changes nothing and returns 1
or -1, or returns 0 after recording `plane_id` on the unbound pipe `i`; in the
second case no pipe recorded the plane before, the plane can be queried and
its type is not primary. -/
theorem drm_crtc_bind_plane_result (k : drm_kernel) (ctx : drm_ctx) (i p : Nat)
    (ua ao : Int) :
    (drm_crtc_bind_plane k ctx i p ua ao = (1, ctx) ∨
      drm_crtc_bind_plane k ctx i p ua ao = (-1, ctx)) ∨
    ∃ crtc plane value afbc,
      ctx.crtcs.get? i = some crtc ∧ crtc.plane_id = 0 ∧
      ctx.crtcs.any (fun c => c.plane_id == p) = false ∧
      drm_get_plane k p = some plane ∧
      drm_plane_get_prop_value k plane "type" = some value ∧
      value ≠ DRM_PLANE_TYPE_PRIMARY ∧
      drm_crtc_bind_plane k ctx i p ua ao =
        (0, ctx.set_crtc i { crtc with use_afbc_modifier := afbc, plane_id := p }) := by
  unfold drm_crtc_bind_plane
  rcases hc : ctx.crtcs.get? i with _ | crtc
  · simp
  · simp only
    by_cases h1 : crtc.plane_id ≠ 0
    · simp [h1]
    · rw [if_neg h1]
      by_cases h2 : ctx.crtcs.any (fun c => c.plane_id == p) = true
      · simp [h2]
      · rw [if_neg h2]
        rcases hp : drm_get_plane k p with _ | plane
        · simp
        · simp only
          have hid := drm_get_plane_plane_id hp
          by_cases h3 : plane.possible_crtcs &&& ((1 <<< crtc.crtc_pipe) % 4294967296) = 0
          · simp [h3]
          · rw [if_neg h3]
            rcases ht : drm_plane_get_prop_value k plane "type" with _ | value
            · simp
            · simp only
              by_cases h4 : value = DRM_PLANE_TYPE_PRIMARY
              · simp [h4]
              · rw [if_neg h4]
                by_cases h5 : ao = 0 ∧ value = DRM_PLANE_TYPE_OVERLAY
                · simp [h5]
                · rw [if_neg h5]
                  by_cases h6 : drm_plane_has_afbc k plane ≥ 0
                  · rw [if_pos h6]
                    right
                    refine ⟨crtc, plane, value, 1, rfl, by simpa using h1, by simpa using h2,
                      rfl, ht, h4, ?_⟩
                    rw [hid]
                  · rw [if_neg h6]
                    by_cases h7 : ua ≠ 0
                    · simp [h7]
                    · rw [if_neg h7]
                      right
                      refine ⟨crtc, plane, value, crtc.use_afbc_modifier, rfl,
                        by simpa using h1, by simpa using h2, rfl, ht, h4, ?_⟩
                      rw [hid]

theorem get?_isSome_of_lt {ctx : drm_ctx} {i : Nat} (h : i < ctx.crtcs.length) :
    ∃ crtc, ctx.crtcs.get? i = some crtc :=
  ⟨ctx.crtcs.get ⟨i, h⟩, List.get?_eq_get h⟩

theorem plane_id_of_eq {ctx : drm_ctx} {i : Nat} {crtc : drm_crtc}
    (h : ctx.crtcs.get? i = some crtc) : ctx.plane_id_of i = crtc.plane_id := by
  unfold drm_ctx.plane_id_of
  rw [h]

theorem plane_id_of_set_crtc_self {ctx : drm_ctx} {i : Nat} {crtc : drm_crtc} (c : drm_crtc)
    (h : ctx.crtcs.get? i = some crtc) : (ctx.set_crtc i c).plane_id_of i = c.plane_id :=
  plane_id_of_eq (set_crtc_get?_self c h)

theorem plane_id_of_set_crtc_ne (ctx : drm_ctx) {i j : Nat} (c : drm_crtc) (h : i ≠ j) :
    (ctx.set_crtc i c).plane_id_of j = ctx.plane_id_of j := by
  unfold drm_ctx.plane_id_of
  rw [set_crtc_get?_ne ctx c h]

theorem plane_id_of_ne_of_any_false {ctx : drm_ctx} {p : Nat}
    (h : ctx.crtcs.any (fun c => c.plane_id == p) = false) {j : Nat}
    (hj : j < ctx.crtcs.length) : ctx.plane_id_of j ≠ p := by
  obtain ⟨c, hc⟩ := get?_isSome_of_lt hj
  rw [plane_id_of_eq hc]
  have hm : c ∈ ctx.crtcs := List.mem_iff_get?.mpr ⟨j, hc⟩
  intro he
  have : ctx.crtcs.any (fun c => c.plane_id == p) = true :=
    List.any_eq_true.mpr ⟨c, hm, by simp [he]⟩
  rw [h] at this
  cases this

theorem start_thread_length (ctx : drm_ctx) (i : Nat) :
    (ctx.start_thread i).crtcs.length = ctx.crtcs.length := by
  unfold drm_ctx.start_thread
  split
  · rfl
  · exact set_crtc_length _ _ _

theorem start_thread_plane_id_of (ctx : drm_ctx) (i j : Nat) :
    (ctx.start_thread i).plane_id_of j = ctx.plane_id_of j := by
  unfold drm_ctx.start_thread
  split
  · rfl
  · rename_i crtc hc
    by_cases h : i = j
    · subst h
      rw [plane_id_of_set_crtc_self _ hc, plane_id_of_eq hc]
    · exact plane_id_of_set_crtc_ne ctx _ h

/-- A property of contexts that every call of `drm_crtc_bind_plane` on pipe `i`
preserves is preserved by each loop of `drm_crtc_prepare`. -/
theorem drm_crtc_prepare_loop_induct (P : drm_ctx → Prop) (k : drm_kernel) (i : Nat)
    (ua ao : Int)
    (hb : ∀ ctx p, P ctx → P (drm_crtc_bind_plane k ctx i p ua ao).2) :
    ∀ (planes : List Nat) (ctx : drm_ctx), P ctx →
      P (drm_crtc_prepare_loop k i ua ao planes ctx) := by
  intro planes
  induction planes with
  | nil => intro ctx h; simpa [drm_crtc_prepare_loop] using h
  | cons p rest ih =>
    intro ctx h
    unfold drm_crtc_prepare_loop
    split_ifs
    · exact h
    · exact ih _ (hb ctx p h)

/-- A loop of `drm_crtc_prepare` on a pipe that already has a plane does
nothing. -/
theorem drm_crtc_prepare_loop_bound (k : drm_kernel) (i : Nat) (ua ao : Int)
    (planes : List Nat) (ctx : drm_ctx) (h : ctx.plane_id_of i ≠ 0) :
    drm_crtc_prepare_loop k i ua ao planes ctx = ctx := by
  cases planes with
  | nil => rfl
  | cons p rest => unfold drm_crtc_prepare_loop; rw [if_pos h]

/-- A property of contexts that `drm_crtc_bind_plane` on pipe `i` and the start
of the worker of pipe `i` preserve holds after `drm_crtc_prepare`. -/
theorem drm_crtc_prepare_induct (P : drm_ctx → Prop) (k : drm_kernel) (i : Nat)
    (hb : ∀ ctx p ua ao, P ctx → P (drm_crtc_bind_plane k ctx i p ua ao).2)
    (hs : ∀ ctx, P ctx → P (ctx.start_thread i))
    (ctx : drm_ctx) (h : P ctx) (r : Int) (ctx2 : drm_ctx)
    (hr : drm_crtc_prepare k ctx i = some (r, ctx2)) : P ctx2 := by
  unfold drm_crtc_prepare at hr
  rcases hc : ctx.crtcs.get? i with _ | crtc
  · rw [hc] at hr; cases hr
  · rw [hc] at hr
    simp only at hr
    by_cases h1 : crtc.plane_id ≠ 0
    · rw [if_pos h1] at hr
      cases hr
      exact h
    · rw [if_neg h1] at hr
      have p1 : P (if crtc.prefer_plane_id ≠ 0 then
          (drm_crtc_bind_plane k ctx i crtc.prefer_plane_id 0 1).2 else ctx) := by
        split_ifs
        · exact hb _ _ _ _ h
        · exact h
      generalize (if crtc.prefer_plane_id ≠ 0 then
          (drm_crtc_bind_plane k ctx i crtc.prefer_plane_id 0 1).2 else ctx) = c1 at hr p1
      have p2 := drm_crtc_prepare_loop_induct P k i 0 0 (fun c p => hb c p 0 0) ctx.planes _ p1
      generalize drm_crtc_prepare_loop k i 0 0 ctx.planes c1 = c2 at hr p2
      have p3 : P (if ctx.prefer_afbc_modifier ≠ 0 then
          drm_crtc_prepare_loop k i 1 0 ctx.planes c2 else c2) := by
        split_ifs
        · exact drm_crtc_prepare_loop_induct P k i 1 0 (fun c p => hb c p 1 0) ctx.planes _ p2
        · exact p2
      generalize (if ctx.prefer_afbc_modifier ≠ 0 then
          drm_crtc_prepare_loop k i 1 0 ctx.planes c2 else c2) = c3 at hr p3
      have p4 : P (if ctx.allow_overlay ≠ 0 then
          drm_crtc_prepare_loop k i 0 1 (ctx.planes.drop 1).reverse c3 else c3) := by
        split_ifs
        · exact drm_crtc_prepare_loop_induct P k i 0 1 (fun c p => hb c p 0 1) _ _ p3
        · exact p3
      generalize (if ctx.allow_overlay ≠ 0 then
          drm_crtc_prepare_loop k i 0 1 (ctx.planes.drop 1).reverse c3 else c3) = c4 at hr p4
      split_ifs at hr
      · cases hr; exact p4
      · cases hr; exact hs _ p4

/-- A call of `drm_crtc_bind_plane` keeps the recorded planes distinct. -/
theorem planes_unique_bind_plane (k : drm_kernel) (ctx : drm_ctx) (i p : Nat) (ua ao : Int)
    (h : planes_unique ctx) : planes_unique (drm_crtc_bind_plane k ctx i p ua ao).2 := by
  rcases drm_crtc_bind_plane_result k ctx i p ua ao with (hr | hr) | hr
  · rw [hr]; exact h
  · rw [hr]; exact h
  · obtain ⟨crtc, plane, value, afbc, hc, h0, hany, -, -, -, hr⟩ := hr
    rw [hr]
    intro a ha b hb hab hne
    rw [set_crtc_length] at ha hb
    simp only at ha hb ⊢
    by_cases hai : i = a
    · subst hai
      rw [plane_id_of_set_crtc_self _ hc, plane_id_of_set_crtc_ne _ _ hab]
      exact fun e => plane_id_of_ne_of_any_false hany hb e.symm
    · rw [plane_id_of_set_crtc_ne _ _ hai] at hne ⊢
      by_cases hbi : i = b
      · subst hbi
        rw [plane_id_of_set_crtc_self _ hc]
        exact plane_id_of_ne_of_any_false hany ha
      · rw [plane_id_of_set_crtc_ne _ _ hbi]
        exact h a ha b hb hab hne

theorem planes_unique_start_thread (ctx : drm_ctx) (i : Nat) (h : planes_unique ctx) :
    planes_unique (ctx.start_thread i) := by
  intro a ha b hb hab hne
  rw [start_thread_length] at ha hb
  rw [start_thread_plane_id_of] at hne ⊢
  rw [start_thread_plane_id_of]
  exact h a ha b hb hab hne

/-- `drm_crtc_prepare` has a result on every pipe of a context whose plane
list is not empty. -/
theorem drm_crtc_prepare_isSome (k : drm_kernel) (ctx : drm_ctx) (i : Nat)
    (hi : i < ctx.crtcs.length) (hp : ctx.planes ≠ []) :
    ∃ r ctx2, drm_crtc_prepare k ctx i = some (r, ctx2) := by
  obtain ⟨crtc, hc⟩ := get?_isSome_of_lt hi
  unfold drm_crtc_prepare
  rw [hc]
  simp only
  by_cases h1 : crtc.plane_id ≠ 0
  · rw [if_pos h1]; exact ⟨_, _, rfl⟩
  · rw [if_neg h1]
    rw [if_neg (fun hq => hp hq.2.2)]
    split_ifs <;> exact ⟨_, _, rfl⟩

/-- C3 (plane uniqueness is an invariant of binding). In a context where no
two distinct pipes record the same non-zero plane, this still holds after
every call of `drm_crtc_bind_plane`, on any pipe with any plane id and flags,
and after every call of `drm_crtc_prepare` (which has a result on every pipe
when the plane list is not empty); and a call for an unbound pipe `i` with a
plane that another pipe `j` already records returns -1 and changes nothing,
so the plane id of pipe `i` stays 0. -/
theorem C3_plane_uniqueness (k : drm_kernel) (ctx : drm_ctx) (h : planes_unique ctx) :
    (∀ i p ua ao, planes_unique (drm_crtc_bind_plane k ctx i p ua ao).2) ∧
    (∀ i r ctx2, drm_crtc_prepare k ctx i = some (r, ctx2) → planes_unique ctx2) ∧
    (∀ i, i < ctx.crtcs.length → ctx.planes ≠ [] →
      ∃ r ctx2, drm_crtc_prepare k ctx i = some (r, ctx2) ∧ planes_unique ctx2) ∧
    (∀ i j p ua ao, i < ctx.crtcs.length → j < ctx.crtcs.length → j ≠ i →
      ctx.plane_id_of i = 0 → ctx.plane_id_of j = p →
      drm_crtc_bind_plane k ctx i p ua ao = (-1, ctx) ∧
        (drm_crtc_bind_plane k ctx i p ua ao).2.plane_id_of i = 0) := by
  have hprep : ∀ i r ctx2, drm_crtc_prepare k ctx i = some (r, ctx2) → planes_unique ctx2 :=
    fun i r ctx2 hr =>
      drm_crtc_prepare_induct planes_unique k i
        (fun c p ua ao hc => planes_unique_bind_plane k c i p ua ao hc)
        (fun c hc => planes_unique_start_thread c i hc) ctx h r ctx2 hr
  refine ⟨fun i p ua ao => planes_unique_bind_plane k ctx i p ua ao h, hprep, ?_, ?_⟩
  · intro i hi hp
    obtain ⟨r, ctx2, hr⟩ := drm_crtc_prepare_isSome k ctx i hi hp
    exact ⟨r, ctx2, hr, hprep i r ctx2 hr⟩
  · intro i j p ua ao hi hj hji h0 hjp
    obtain ⟨ci, hci⟩ := get?_isSome_of_lt hi
    obtain ⟨cj, hcj⟩ := get?_isSome_of_lt hj
    rw [plane_id_of_eq hci] at h0
    rw [plane_id_of_eq hcj] at hjp
    have hany : ctx.crtcs.any (fun c => c.plane_id == p) = true :=
      List.any_eq_true.mpr ⟨cj, List.mem_iff_get?.mpr ⟨j, hcj⟩, by simp [hjp]⟩
    have hb : drm_crtc_bind_plane k ctx i p ua ao = (-1, ctx) := by
      unfold drm_crtc_bind_plane
      rw [hci]
      simp only
      rw [if_neg (by simp [h0]), if_pos hany]
    rw [hb]
    exact ⟨rfl, by rw [plane_id_of_eq hci]; exact h0⟩

/-- C3 on the concrete device: its two pipes record distinct planes, and so
they do after any binding. -/
theorem C3_plane_uniqueness_witness :
    planes_unique example_ctx ∧
    (∀ i p ua ao, planes_unique (drm_crtc_bind_plane example_kernel example_ctx i p ua ao).2) ∧
    (∀ i r ctx2, drm_crtc_prepare example_kernel example_ctx i = some (r, ctx2) →
      planes_unique ctx2) ∧
    (∀ i, i < example_ctx.crtcs.length → example_ctx.planes ≠ [] →
      ∃ r ctx2, drm_crtc_prepare example_kernel example_ctx i = some (r, ctx2) ∧
        planes_unique ctx2) ∧
    (∀ i j p ua ao, i < example_ctx.crtcs.length → j < example_ctx.crtcs.length → j ≠ i →
      example_ctx.plane_id_of i = 0 → example_ctx.plane_id_of j = p →
      drm_crtc_bind_plane example_kernel example_ctx i p ua ao = (-1, example_ctx) ∧
        (drm_crtc_bind_plane example_kernel example_ctx i p ua ao).2.plane_id_of i = 0) :=
  ⟨by decide, C3_plane_uniqueness example_kernel example_ctx (by decide)⟩

/-- A plane `drm_crtc_bind_plane` accepted is not primary. -/
theorem not_primary_bind_plane (k : drm_kernel) (ctx : drm_ctx) (i p : Nat) (ua ao : Int)
    (h : ctx.plane_id_of i ≠ 0 → ¬ plane_is_primary k (ctx.plane_id_of i)) :
    (drm_crtc_bind_plane k ctx i p ua ao).2.plane_id_of i ≠ 0 →
      ¬ plane_is_primary k ((drm_crtc_bind_plane k ctx i p ua ao).2.plane_id_of i) := by
  rcases drm_crtc_bind_plane_result k ctx i p ua ao with (hr | hr) | hr
  · rw [hr]; exact h
  · rw [hr]; exact h
  · obtain ⟨crtc, plane, value, afbc, hc, -, -, hp, ht, hv, hr⟩ := hr
    rw [hr]
    simp only
    rw [plane_id_of_set_crtc_self _ hc]
    simp only
    rintro - ⟨plane2, hp2, ht2⟩
    rw [hp] at hp2
    cases hp2
    rw [ht] at ht2
    cases ht2
    exact hv rfl

/-- C4, as amended (primary-plane exclusion). A plane whose "type" property
reads as primary is never recorded: `drm_crtc_bind_plane` on such a plane
leaves the whole context unchanged (so also `plane_id` and
`use_afbc_modifier` of the pipe), for all flags; it returns -1 when the pipe
has no plane yet and 1 when the pipe already has one. Hence if the plane of
the pipe, if any, is not primary before `drm_crtc_prepare`, the same holds
after it, whatever the plane list, the hint and the options are. -/
theorem C4_primary_exclusion (k : drm_kernel) (ctx : drm_ctx) (i : Nat) (crtc : drm_crtc)
    (hc : ctx.crtcs.get? i = some crtc) :
    (∀ p ua ao, plane_is_primary k p →
      drm_crtc_bind_plane k ctx i p ua ao = (if crtc.plane_id ≠ 0 then 1 else -1, ctx)) ∧
    (∀ r ctx2, (crtc.plane_id ≠ 0 → ¬ plane_is_primary k crtc.plane_id) →
      drm_crtc_prepare k ctx i = some (r, ctx2) →
      ctx2.plane_id_of i ≠ 0 → ¬ plane_is_primary k (ctx2.plane_id_of i)) := by
  constructor
  · rintro p ua ao ⟨plane, hp, ht⟩
    unfold drm_crtc_bind_plane
    rw [hc]
    simp only
    by_cases h1 : crtc.plane_id ≠ 0
    · rw [if_pos h1, if_pos h1]
    · rw [if_neg h1, if_neg h1]
      by_cases h2 : ctx.crtcs.any (fun c => c.plane_id == p) = true
      · rw [if_pos h2]
      · rw [if_neg h2, hp]
        simp only
        by_cases h3 : plane.possible_crtcs &&& ((1 <<< crtc.crtc_pipe) % 4294967296) = 0
        · rw [if_pos h3]
        · rw [if_neg h3, ht]
          simp only [if_true]
  · intro r ctx2 h0 hr
    refine drm_crtc_prepare_induct
      (fun c => c.plane_id_of i ≠ 0 → ¬ plane_is_primary k (c.plane_id_of i)) k i
      (fun c p ua ao hP => not_primary_bind_plane k c i p ua ao hP)
      (fun c hP => ?_) ctx ?_ r ctx2 hr
    · show (c.start_thread i).plane_id_of i ≠ 0 →
        ¬ plane_is_primary k ((c.start_thread i).plane_id_of i)
      rw [start_thread_plane_id_of]; exact hP
    · show ctx.plane_id_of i ≠ 0 → ¬ plane_is_primary k (ctx.plane_id_of i)
      rw [plane_id_of_eq hc]; exact h0

/-- C4 on the concrete device: pipe 0 has no plane yet; binding it to the
primary plane 31 returns -1, and preparing it does not end on plane 31. -/
theorem C4_primary_exclusion_witness :
    example_ctx.crtcs.get? 0 = some (example_crtc 50 0 0 32) ∧
    ((∀ p ua ao, plane_is_primary example_kernel p →
      drm_crtc_bind_plane example_kernel example_ctx 0 p ua ao =
        (if (example_crtc 50 0 0 32).plane_id ≠ 0 then 1 else -1, example_ctx)) ∧
    (∀ r ctx2,
      ((example_crtc 50 0 0 32).plane_id ≠ 0 →
        ¬ plane_is_primary example_kernel (example_crtc 50 0 0 32).plane_id) →
      drm_crtc_prepare example_kernel example_ctx 0 = some (r, ctx2) →
      ctx2.plane_id_of 0 ≠ 0 → ¬ plane_is_primary example_kernel (ctx2.plane_id_of 0))) :=
  ⟨rfl, C4_primary_exclusion example_kernel example_ctx 0 (example_crtc 50 0 0 32) rfl⟩

/-- C4 as stated fails on a pipe that already has a plane: pipe 1 of the
concrete device records plane 33, plane 31 reads as primary, and
`drm_crtc_bind_plane` returns 1, not -1. -/
theorem C4_counterexample :
    plane_is_primary example_kernel 31 ∧
    drm_crtc_bind_plane example_kernel example_ctx 1 31 0 0 = (1, example_ctx) ∧
    (drm_crtc_bind_plane example_kernel example_ctx 1 31 0 0).1 ≠ -1 := by
  refine ⟨⟨{ plane_id := 31, possible_crtcs := 3, props := [(3, 0), (1, 1)] }, ?_, ?_⟩, ?_, ?_⟩
  · decide
  · decide
  · decide
  · decide

/-- C5 (selection priority). For an unbound pipe whose hint
`prefer_plane_id` is set and names a plane that can be queried, whose
`possible_crtcs` contains the pipe, whose "type" is readable and not primary
(overlay included), and that no other pipe records, `drm_crtc_prepare`
returns 0 and records exactly that plane, whatever the plane list and the
options `allow_overlay` and `prefer_afbc_modifier` are; the other pipes keep
their planes. -/
theorem C5_selection_priority (k : drm_kernel) (ctx : drm_ctx) (i : Nat) (crtc : drm_crtc)
    (plane : drm_plane) (value : Nat)
    (hc : ctx.crtcs.get? i = some crtc) (h0 : crtc.plane_id = 0)
    (hh : crtc.prefer_plane_id ≠ 0)
    (hq : drm_get_plane k crtc.prefer_plane_id = some plane)
    (hm : plane.possible_crtcs &&& ((1 <<< crtc.crtc_pipe) % 4294967296) ≠ 0)
    (ht : drm_plane_get_prop_value k plane "type" = some value)
    (hv : value ≠ DRM_PLANE_TYPE_PRIMARY)
    (ha : ∀ j, j ≠ i → ctx.plane_id_of j ≠ crtc.prefer_plane_id) :
    ∃ ctx2, drm_crtc_prepare k ctx i = some (0, ctx2) ∧
      ctx2.plane_id_of i = crtc.prefer_plane_id ∧
      ∀ j, j ≠ i → ctx2.plane_id_of j = ctx.plane_id_of j := by
  have hany : ¬ ctx.crtcs.any (fun c => c.plane_id == crtc.prefer_plane_id) = true := by
    intro h
    obtain ⟨c, hmem, hce⟩ := List.any_eq_true.mp h
    obtain ⟨j, hj⟩ := List.mem_iff_get?.mp hmem
    have hce2 : c.plane_id = crtc.prefer_plane_id := by simpa using hce
    by_cases hji : j = i
    · subst hji
      rw [hc] at hj
      cases hj
      exact hh (hce2.symm.trans h0)
    · exact ha j hji ((plane_id_of_eq hj).trans hce2)
  have hid := drm_get_plane_plane_id hq
  have hbind : ∃ afbc, drm_crtc_bind_plane k ctx i crtc.prefer_plane_id 0 1 =
      (0, ctx.set_crtc i
        { crtc with use_afbc_modifier := afbc, plane_id := crtc.prefer_plane_id }) := by
    unfold drm_crtc_bind_plane
    rw [hc]
    simp only
    rw [if_neg (by simp [h0]), if_neg hany, hq]
    simp only
    rw [if_neg hm, ht]
    simp only
    rw [if_neg hv, if_neg (by simp), hid]
    by_cases h6 : drm_plane_has_afbc k plane ≥ 0
    · rw [if_pos h6]; exact ⟨1, rfl⟩
    · rw [if_neg h6, if_neg (by simp)]; exact ⟨crtc.use_afbc_modifier, rfl⟩
  obtain ⟨afbc, hbind⟩ := hbind
  have hpid : (ctx.set_crtc i
      { crtc with use_afbc_modifier := afbc, plane_id := crtc.prefer_plane_id }).plane_id_of i
        = crtc.prefer_plane_id := plane_id_of_set_crtc_self _ hc
  have hne : (ctx.set_crtc i
      { crtc with use_afbc_modifier := afbc, plane_id := crtc.prefer_plane_id }).plane_id_of i
        ≠ 0 := by rw [hpid]; exact hh
  refine ⟨(ctx.set_crtc i
      { crtc with use_afbc_modifier := afbc, plane_id := crtc.prefer_plane_id }).start_thread i,
    ?_, ?_, ?_⟩
  · unfold drm_crtc_prepare
    rw [hc]
    simp only
    rw [if_neg (by simp [h0]), if_pos hh, hbind]
    simp only [drm_crtc_prepare_loop_bound k i _ _ _ _ hne, ite_self]
    rw [if_neg (fun hq2 => hne hq2.2.1), if_neg hne]
  · rw [start_thread_plane_id_of, hpid]
  · intro j hj
    rw [start_thread_plane_id_of, plane_id_of_set_crtc_ne _ _ (Ne.symm hj)]

/-- C5 on the concrete device: pipe 0 prefers plane 32 and gets it, although
plane 32 is an overlay and overlays are not allowed globally. -/
theorem C5_selection_priority_witness :
    ∃ ctx2, drm_crtc_prepare example_kernel example_ctx 0 = some (0, ctx2) ∧
      ctx2.plane_id_of 0 = (example_crtc 50 0 0 32).prefer_plane_id ∧
      ∀ j, j ≠ 0 → ctx2.plane_id_of j = example_ctx.plane_id_of j :=
  C5_selection_priority example_kernel example_ctx 0 (example_crtc 50 0 0 32)
    { plane_id := 32, possible_crtcs := 3, props := [(1, 0), (2, 100)] } 0
    (by decide) (by decide) (by decide) (by decide) (by decide) (by decide) (by decide)
    (by
      intro j hj
      match j, hj with
      | 0, h => exact absurd rfl h
      | 1, _ => decide
      | (n + 2), _ => simp [drm_ctx.plane_id_of, example_ctx, example_crtc])

/-! ### Requests -/

theorem drm_crtc_size_is_int32 {k : drm_kernel} {crtc_id : Nat} {W H : Int}
    (h : drm_crtc_size k crtc_id = some (W, H)) : is_int32 W ∧ is_int32 H := by
  unfold drm_crtc_size at h
  split at h
  · cases h
  · split_ifs at h
    simp only [Option.some.injEq, Prod.mk.injEq] at h
    rw [← h.1, ← h.2]
    exact ⟨to_int32_is_int32 _, to_int32_is_int32 _⟩

/-- What `drm_crtc_prepare` keeps of the pipe it prepares. -/
theorem drm_crtc_prepare_keeps (k : drm_kernel) (ctx : drm_ctx) (i : Nat) (crtc : drm_crtc)
    (r : Int) (ctx2 : drm_ctx) (hc : ctx.crtcs.get? i = some crtc)
    (hr : drm_crtc_prepare k ctx i = some (r, ctx2)) :
    ∃ c2, ctx2.crtcs.get? i = some c2 ∧ c2.crtc_id = crtc.crtc_id ∧
      c2.cursor_curr = crtc.cursor_curr ∧ c2.cursor_next = crtc.cursor_next ∧
      c2.state = crtc.state ∧ c2.egl_ctx = crtc.egl_ctx := by
  refine drm_crtc_prepare_induct
    (fun c => ∃ c2, c.crtcs.get? i = some c2 ∧ c2.crtc_id = crtc.crtc_id ∧
      c2.cursor_curr = crtc.cursor_curr ∧ c2.cursor_next = crtc.cursor_next ∧
      c2.state = crtc.state ∧ c2.egl_ctx = crtc.egl_ctx) k i ?_ ?_ ctx
    ⟨crtc, hc, rfl, rfl, rfl, rfl, rfl⟩ r ctx2 hr
  · rintro c p ua ao ⟨c2, h2, e1, e2, e3, e4, e5⟩
    rcases drm_crtc_bind_plane_result k c i p ua ao with (hb | hb) | hb
    · rw [hb]; exact ⟨c2, h2, e1, e2, e3, e4, e5⟩
    · rw [hb]; exact ⟨c2, h2, e1, e2, e3, e4, e5⟩
    · obtain ⟨c3, plane, value, afbc, hc3, -, -, -, -, -, hb⟩ := hb
      rw [hb]
      rw [h2] at hc3
      cases hc3
      exact ⟨_, set_crtc_get?_self _ h2, e1, e2, e3, e4, e5⟩
  · rintro c ⟨c2, h2, e1, e2, e3, e4, e5⟩
    unfold drm_ctx.start_thread
    rw [h2]
    exact ⟨_, set_crtc_get?_self _ h2, e1, e2, e3, e4, e5⟩

/-- The request `drm_move_cursor_request` writes, axis by axis, when the
current cursor is not larger than the pipe. -/
theorem drm_move_cursor_request_eq (crtc : drm_crtc) (W H x y : Int)
    (hW : is_int32 W) (hH : is_int32 H) (hx : is_int32 x) (hy : is_int32 y)
    (hw : 0 ≤ crtc.cursor_curr.width ∧ crtc.cursor_curr.width ≤ W)
    (hh : 0 ≤ crtc.cursor_curr.height ∧ crtc.cursor_curr.height ≤ H)
    (hs : crtc.state ≠ drm_thread_state.ERROR) :
    drm_move_cursor_request crtc W H x y =
      (0, { crtc with
        cursor_next := { crtc.cursor_next with
          reload := 0, fb := 0,
          x := if x < 0 then 0 else if x > W - crtc.cursor_curr.width then
            W - crtc.cursor_curr.width else x,
          y := if y < 0 then 0 else if y > H - crtc.cursor_curr.height then
            H - crtc.cursor_curr.height else y,
          off_x := if x < 0 then x else if x > W - crtc.cursor_curr.width then
            x - (W - crtc.cursor_curr.width) else 0,
          off_y := if y < 0 then y else if y > H - crtc.cursor_curr.height then
            y - (H - crtc.cursor_curr.height) else 0 },
        state := drm_thread_state.PENDING }) := by
  have e1 : to_int32 (W - crtc.cursor_curr.width) = W - crtc.cursor_curr.width :=
    to_int32_of_is_int32 (by unfold is_int32 at *; omega)
  have e2 : to_int32 (H - crtc.cursor_curr.height) = H - crtc.cursor_curr.height :=
    to_int32_of_is_int32 (by unfold is_int32 at *; omega)
  unfold drm_move_cursor_request drm_move_cursor_clamp
  simp only [e1, e2, if_neg hs]
  unfold is_int32 at hx hy hW hH
  have hL : 0 ≤ W - crtc.cursor_curr.width ∧ W - crtc.cursor_curr.width < 2147483648 := by
    omega
  have hM : 0 ≤ H - crtc.cursor_curr.height ∧ H - crtc.cursor_curr.height < 2147483648 := by
    omega
  generalize W - crtc.cursor_curr.width = L at *
  generalize H - crtc.cursor_curr.height = M at *
  have hx1 : (if (if x < 0 then 0 else x) > L then L else if x < 0 then 0 else x) =
      (if x < 0 then 0 else if x > L then L else x) := by
    split_ifs <;> omega
  have hy1 : (if (if y < 0 then 0 else y) > M then M else if y < 0 then 0 else y) =
      (if y < 0 then 0 else if y > M then M else y) := by
    split_ifs <;> omega
  have hx2 : (if (if x < 0 then 0 else x) > L then to_int32 ((if x < 0 then 0 else x) - L)
      else if x < 0 then x else 0) = (if x < 0 then x else if x > L then x - L else 0) := by
    unfold to_int32; split_ifs <;> omega
  have hy2 : (if (if y < 0 then 0 else y) > M then to_int32 ((if y < 0 then 0 else y) - M)
      else if y < 0 then y else 0) = (if y < 0 then y else if y > M then y - M else 0) := by
    unfold to_int32; split_ifs <;> omega
  rw [hx1, hy1, hx2, hy2]

/-- C1 (edge clamping in `drm_move_cursor`). Let `drm_get_crtc` resolve the
pipe `i`, let `drm_crtc_prepare` succeed on it, let `drm_crtc_size` give the
non-zero pipe size `(W, H)`, let the current cursor size `(w, h)` satisfy
`0 <= w <= W` and `0 <= h <= H`, and let the pipe not be in `ERROR`. Then for
all `int` values `x`, `y` the call returns 0 and the request in `cursor_next`
has `reload = 0`, `fb = 0` and, on each axis by itself: position 0 and offset
`x` when `x < 0`; position `W - w` and offset `x - (W - w)` when `x > W - w`;
position `x` and offset 0 when `0 <= x <= W - w`. -/
theorem C1_edge_clamping (k : drm_kernel) (ctx : drm_ctx) (crtc_id i : Nat) (crtc : drm_crtc)
    (r : Int) (ctx1 : drm_ctx) (W H x y : Int)
    (hx : is_int32 x) (hy : is_int32 y)
    (hi : drm_get_crtc k ctx crtc_id = some i)
    (hc : ctx.crtcs.get? i = some crtc)
    (hp : drm_crtc_prepare k ctx i = some (r, ctx1)) (hr : 0 ≤ r)
    (hsz : drm_crtc_size k crtc.crtc_id = some (W, H))
    (hw : 0 ≤ crtc.cursor_curr.width ∧ crtc.cursor_curr.width ≤ W)
    (hh : 0 ≤ crtc.cursor_curr.height ∧ crtc.cursor_curr.height ≤ H)
    (hs : crtc.state ≠ drm_thread_state.ERROR) :
    ∃ c2, drm_move_cursor k ctx crtc_id x y = some (0, ctx1.set_crtc i c2) ∧
      (ctx1.set_crtc i c2).crtcs.get? i = some c2 ∧
      c2.state = drm_thread_state.PENDING ∧
      c2.cursor_next.reload = 0 ∧ c2.cursor_next.fb = 0 ∧
      (x < 0 → c2.cursor_next.x = 0 ∧ c2.cursor_next.off_x = x) ∧
      (x > W - crtc.cursor_curr.width →
        c2.cursor_next.x = W - crtc.cursor_curr.width ∧
        c2.cursor_next.off_x = x - (W - crtc.cursor_curr.width)) ∧
      (0 ≤ x ∧ x ≤ W - crtc.cursor_curr.width →
        c2.cursor_next.x = x ∧ c2.cursor_next.off_x = 0) ∧
      (y < 0 → c2.cursor_next.y = 0 ∧ c2.cursor_next.off_y = y) ∧
      (y > H - crtc.cursor_curr.height →
        c2.cursor_next.y = H - crtc.cursor_curr.height ∧
        c2.cursor_next.off_y = y - (H - crtc.cursor_curr.height)) ∧
      (0 ≤ y ∧ y ≤ H - crtc.cursor_curr.height →
        c2.cursor_next.y = y ∧ c2.cursor_next.off_y = 0) := by
  obtain ⟨c1, hc1, e1, e2, -, e4, -⟩ := drm_crtc_prepare_keeps k ctx i crtc r ctx1 hc hp
  obtain ⟨hW, hH⟩ := drm_crtc_size_is_int32 hsz
  have hreq := drm_move_cursor_request_eq c1 W H x y hW hH hx hy
    (by rw [e2]; exact hw) (by rw [e2]; exact hh) (by rw [e4]; exact hs)
  rw [e2] at hreq
  refine ⟨(drm_move_cursor_request c1 W H x y).2, ?_, set_crtc_get?_self _ hc1, ?_⟩
  · unfold drm_move_cursor
    rw [hi]
    simp only
    rw [hp]
    simp only
    rw [if_neg (not_lt.mpr hr), hc1]
    simp only
    rw [e1, hsz]
    simp only
    rw [hreq]
  · rw [hreq]
    simp only
    have hwl := hw.1
    have hhl := hh.1
    refine ⟨trivial, trivial, trivial, ?_, ?_, ?_, ?_, ?_, ?_⟩
    · intro h; rw [if_pos h, if_pos h]; exact ⟨rfl, rfl⟩
    · intro h
      have h0 : ¬ x < 0 := by omega
      rw [if_neg h0, if_neg h0, if_pos h, if_pos h]; exact ⟨rfl, rfl⟩
    · rintro ⟨h0, h1⟩
      rw [if_neg (not_lt.mpr h0), if_neg (not_lt.mpr h0), if_neg (not_lt.mpr h1),
        if_neg (not_lt.mpr h1)]
      exact ⟨rfl, rfl⟩
    · intro h; rw [if_pos h, if_pos h]; exact ⟨rfl, rfl⟩
    · intro h
      have h0 : ¬ y < 0 := by omega
      rw [if_neg h0, if_neg h0, if_pos h, if_pos h]; exact ⟨rfl, rfl⟩
    · rintro ⟨h0, h1⟩
      rw [if_neg (not_lt.mpr h0), if_neg (not_lt.mpr h0), if_neg (not_lt.mpr h1),
        if_neg (not_lt.mpr h1)]
      exact ⟨rfl, rfl⟩

/-- C1 on the concrete device: pipe 50 is 1920x1080 and shows a 64x64 cursor;
`Move(-5, 0)` is written as position (0, 0) with edge offset (-5, 0). -/
theorem C1_edge_clamping_witness :
    ∃ c2, drm_move_cursor example_kernel example_ctx_cursor 50 (-5) 0 =
        some (0, example_ctx_cursor.set_crtc 0 c2) ∧
      c2.cursor_next.x = 0 ∧ c2.cursor_next.off_x = -5 ∧
      c2.cursor_next.y = 0 ∧ c2.cursor_next.off_y = 0 := by
  obtain ⟨c2, h1, -, -, -, -, hxn, -, -, -, -, hyz⟩ :=
    C1_edge_clamping example_kernel example_ctx_cursor 50 0
      { example_crtc 50 0 32 32 with
        cursor_next := { drm_cursor_state.zero with
          handle := 5, width := 64, height := 64, x := 10, y := 20 },
        cursor_curr := {
          handle := 5, fb := 7, width := 64, height := 64, x := 10, y := 20,
          off_x := 0, off_y := 0, reload := 0 },
        egl_ctx := true, use_afbc_modifier := 1 }
      1 example_ctx_cursor 1920 1080 (-5) 0
      ⟨by decide, by decide⟩ ⟨by decide, by decide⟩ (by decide) (by decide) (by decide)
      (by decide) (by decide) ⟨by decide, by decide⟩ ⟨by decide, by decide⟩ (by decide)
  exact ⟨c2, h1, (hxn (by decide)).1, (hxn (by decide)).2, (hyz ⟨by decide, by decide⟩).1,
    (hyz ⟨by decide, by decide⟩).2⟩

/-! ### The terminal state -/

/-- A pipe in `ERROR` whose worker has exited is left as it is by every
event, and no call is issued. -/
theorem pipe_step_of_error (crtc : drm_crtc) (e : pipe_event)
    (hs : crtc.state = drm_thread_state.ERROR) (ht : crtc.thread = drm_thread_pc.exited) :
    pipe_step crtc e = (crtc, []) := by
  cases e with
  | set_request handle width height =>
    simp [pipe_step, drm_set_cursor_request, hs]
  | move_request width height x y =>
    simp [pipe_step, drm_move_cursor_request, hs]
  | thread_step env =>
    simp [pipe_step, drm_crtc_thread_step, drm_crtc_thread_exec, ht]

theorem pipe_run_of_error (crtc : drm_crtc) (evs : List pipe_event)
    (hs : crtc.state = drm_thread_state.ERROR) (ht : crtc.thread = drm_thread_pc.exited) :
    pipe_run crtc evs = (crtc, []) := by
  induction evs with
  | nil => rfl
  | cons e es ih =>
    unfold pipe_run
    simp only [pipe_step_of_error crtc e hs ht, ih, List.append_nil]

/-- Only the worker sets `ERROR`, and it exits when it does: a step from a
pipe where `ERROR` implies an exited worker ends in such a pipe. -/
theorem pipe_step_error_exited (crtc : drm_crtc) (e : pipe_event)
    (h : crtc.state = drm_thread_state.ERROR → crtc.thread = drm_thread_pc.exited) :
    (pipe_step crtc e).1.state = drm_thread_state.ERROR →
      (pipe_step crtc e).1.thread = drm_thread_pc.exited := by
  cases e with
  | set_request handle width height =>
    unfold pipe_step drm_set_cursor_request
    split_ifs with h1
    · exact fun _ => h h1
    · intro h2; cases h2
  | move_request width height x y =>
    unfold pipe_step drm_move_cursor_request
    simp only
    by_cases h1 : crtc.state = drm_thread_state.ERROR
    · rw [if_pos h1]; exact fun _ => h h1
    · rw [if_neg h1]; intro h2; cases h2
  | thread_step env =>
    unfold pipe_step drm_crtc_thread_step
    rcases ht : crtc.thread with _ | _ | cs | _
    · simp only [drm_crtc_thread_exec, ht]
      intro h2; rw [← ht]; exact h h2
    · simp only [drm_crtc_thread_fetch, ht]
      split_ifs with h1
      · intro h2; cases h2
      · intro h2; exact h h2
    · simp only [drm_crtc_thread_exec, ht]
      split_ifs with h1
      · unfold drm_crtc_thread_next
        simp only
        split_ifs with h2
        · intro h3; cases h3
        · intro h3; rw [h3] at h2; exact absurd (by decide) h2
      · intro _; rfl
    · simp only [drm_crtc_thread_exec, ht]
      intro _; trivial

theorem pipe_run_error_exited (evs : List pipe_event) :
    ∀ crtc : drm_crtc,
      (crtc.state = drm_thread_state.ERROR → crtc.thread = drm_thread_pc.exited) →
      (pipe_run crtc evs).1.state = drm_thread_state.ERROR →
        (pipe_run crtc evs).1.thread = drm_thread_pc.exited := by
  induction evs with
  | nil => intro crtc h; exact h
  | cons e es ih =>
    intro crtc h
    unfold pipe_run
    exact ih _ (pipe_step_error_exited crtc e h)

theorem drm_crtc_prepare_of_bound {k : drm_kernel} {ctx : drm_ctx} {i : Nat} {crtc : drm_crtc}
    (hc : ctx.crtcs.get? i = some crtc) (hp : crtc.plane_id ≠ 0) :
    drm_crtc_prepare k ctx i = some (1, ctx) := by
  unfold drm_crtc_prepare
  rw [hc]
  simp only
  rw [if_pos hp]

/-- C2 (terminal error). On a prepared pipe whose state is `ERROR`,
`drm_set_cursor` and `drm_move_cursor` return -1 for all arguments and leave
the whole context as it was (the state stays `ERROR`, `cursor_next` and
`cursor_curr` are untouched), and `drm_set_cursor` issues no call; the
critical section of either producer leaves the pipe unchanged. No step moves a
pipe out of `ERROR`: from any pipe in which `ERROR` goes with an exited
worker (as in the initial pipe, whose state is `IDLE`), every sequence of
producer and worker steps that reaches `ERROR` reaches it with the worker
exited, and every further sequence of steps leaves that pipe unchanged and
issues no call. -/
theorem C2_terminal_error (k : drm_kernel) (ctx : drm_ctx) (crtc_id i : Nat) (crtc : drm_crtc)
    (hi : drm_get_crtc k ctx crtc_id = some i)
    (hc : ctx.crtcs.get? i = some crtc)
    (hp : crtc.plane_id ≠ 0)
    (hs : crtc.state = drm_thread_state.ERROR) :
    (∀ envs fuel handle width height,
      drm_set_cursor k envs fuel ctx crtc_id handle width height = some (-1, ctx, [])) ∧
    (∀ x y, drm_move_cursor k ctx crtc_id x y = some (-1, ctx)) ∧
    (∀ handle width height, drm_set_cursor_request crtc handle width height = (-1, crtc)) ∧
    (∀ width height x y, drm_move_cursor_request crtc width height x y = (-1, crtc)) ∧
    (∀ (c0 : drm_crtc) (evs1 evs2 : List pipe_event),
      (c0.state = drm_thread_state.ERROR → c0.thread = drm_thread_pc.exited) →
      (pipe_run c0 evs1).1.state = drm_thread_state.ERROR →
        (pipe_run c0 evs1).1.thread = drm_thread_pc.exited ∧
        pipe_run (pipe_run c0 evs1).1 evs2 = ((pipe_run c0 evs1).1, [])) := by
  have hset : ∀ handle width height,
      drm_set_cursor_request crtc handle width height = (-1, crtc) := by
    intro handle width height
    unfold drm_set_cursor_request
    rw [if_pos hs]
  have hmove : ∀ width height x y,
      drm_move_cursor_request crtc width height x y = (-1, crtc) := by
    intro width height x y
    unfold drm_move_cursor_request
    simp only
    rw [if_pos hs]
  refine ⟨?_, ?_, hset, hmove, ?_⟩
  · intro envs fuel handle width height
    unfold drm_set_cursor
    rw [hi]
    simp only
    rw [drm_crtc_prepare_of_bound hc hp]
    simp only
    rw [if_neg (by decide), hc]
    simp only
    rw [hset]
    simp
  · intro x y
    unfold drm_move_cursor
    rw [hi]
    simp only
    rw [drm_crtc_prepare_of_bound hc hp]
    simp only
    rw [if_neg (by decide), hc]
    simp only
    rcases drm_crtc_size k crtc.crtc_id with _ | size
    · rfl
    · simp only
      rw [hmove, set_crtc_same hc]
  · intro c0 evs1 evs2 h0 h1
    have h2 := pipe_run_error_exited evs1 c0 h0 h1
    exact ⟨h2, pipe_run_of_error _ evs2 h1 h2⟩

/-- C2 on the concrete device after a failed commit on pipe 50. -/
theorem C2_terminal_error_witness :
    (∀ envs fuel handle width height,
      drm_set_cursor example_kernel envs fuel example_ctx_error 50 handle width height =
        some (-1, example_ctx_error, [])) ∧
    (∀ x y, drm_move_cursor example_kernel example_ctx_error 50 x y =
      some (-1, example_ctx_error)) :=
  have h := C2_terminal_error example_kernel example_ctx_error 50 0
    { example_crtc 50 0 32 32 with
      cursor_next := { drm_cursor_state.zero with
        handle := 5, width := 64, height := 64, x := 10, y := 20, reload := 1 },
      thread := drm_thread_pc.exited, state := drm_thread_state.ERROR,
      egl_ctx := true, use_afbc_modifier := 1 }
    (by decide) (by decide) (by decide) (by decide)
  ⟨h.1, h.2.1⟩

/-! ### Disabling the cursor -/

/-- C7 (no-op commit). For every pipe and every requested state whose `fb`,
`x` and `y` equal those of `cursor_curr`, `drm_crtc_update_cursor` returns 0,
issues no call and leaves `cursor_curr` equal to the requested state in every
field. Consequently, on a pipe with a committed framebuffer whose worker
waits, a move request that the clamping of `drm_move_cursor` turns into the
committed `(x, y)` and the committed edge offset is fetched and executed by
the worker without any call, and the pipe ends in `IDLE`, not in `ERROR`. -/
theorem C7_noop_commit (crtc : drm_crtc) :
    (∀ (set_plane : Int) (cs : drm_cursor_state),
      crtc.cursor_curr.fb = cs.fb → crtc.cursor_curr.x = cs.x → crtc.cursor_curr.y = cs.y →
      drm_crtc_update_cursor set_plane crtc (some cs) = (0, { crtc with cursor_curr := cs }, [])) ∧
    (∀ (width height x y : Int) (env1 env2 : hw_env),
      crtc.thread = drm_thread_pc.waiting →
      crtc.state ≠ drm_thread_state.ERROR →
      crtc.cursor_curr.fb ≠ 0 →
      drm_move_cursor_clamp crtc width height x y =
        (crtc.cursor_curr.x, crtc.cursor_curr.y,
          crtc.cursor_curr.off_x, crtc.cursor_curr.off_y) →
      (pipe_run crtc [pipe_event.move_request width height x y,
          pipe_event.thread_step env1, pipe_event.thread_step env2]).2 = [] ∧
      (pipe_run crtc [pipe_event.move_request width height x y,
          pipe_event.thread_step env1, pipe_event.thread_step env2]).1 =
        { crtc with
          cursor_next := { crtc.cursor_next with
            reload := 0, fb := 0, x := crtc.cursor_curr.x, y := crtc.cursor_curr.y,
            off_x := crtc.cursor_curr.off_x, off_y := crtc.cursor_curr.off_y },
          cursor_curr := { crtc.cursor_next with
            reload := 0, fb := crtc.cursor_curr.fb,
            x := crtc.cursor_curr.x, y := crtc.cursor_curr.y,
            off_x := crtc.cursor_curr.off_x, off_y := crtc.cursor_curr.off_y },
          state := drm_thread_state.IDLE }) := by
  constructor
  · intro set_plane cs h1 h2 h3
    unfold drm_crtc_update_cursor
    simp only
    rw [if_pos ⟨h1, h2, h3⟩]
  · intro width height x y env1 env2 ht hs hfb hcl
    simp only [pipe_run, pipe_step, drm_move_cursor_request, hcl, if_neg hs,
      drm_crtc_thread_step, ht, drm_crtc_thread_fetch, and_self, if_true,
      drm_crtc_thread_exec, drm_crtc_thread_body, drm_crtc_update_cursor]
    simp [hfb, drm_crtc_thread_next, ht]

/-- C7 on the concrete device: moving the committed cursor of pipe 50 to
(10, 20), where it is, issues no call even on a hardware that would reject
the commit, and the pipe ends in `IDLE`. -/
theorem C7_noop_commit_witness :
    (pipe_run
      { example_crtc 50 0 32 32 with
        cursor_next := { drm_cursor_state.zero with
          handle := 5, width := 64, height := 64, x := 10, y := 20 },
        cursor_curr := {
          handle := 5, fb := 7, width := 64, height := 64, x := 10, y := 20,
          off_x := 0, off_y := 0, reload := 0 },
        egl_ctx := true, use_afbc_modifier := 1 }
      [pipe_event.move_request 1920 1080 10 20,
        pipe_event.thread_step example_env_failing,
        pipe_event.thread_step example_env_failing]).2 = [] :=
  ((C7_noop_commit
      { example_crtc 50 0 32 32 with
        cursor_next := { drm_cursor_state.zero with
          handle := 5, width := 64, height := 64, x := 10, y := 20 },
        cursor_curr := {
          handle := 5, fb := 7, width := 64, height := 64, x := 10, y := 20,
          off_x := 0, off_y := 0, reload := 0 },
        egl_ctx := true, use_afbc_modifier := 1 }).2
    1920 1080 10 20 example_env_failing example_env_failing
    (by decide) (by decide) (by decide) (by decide)).1

/-! ### The hot-spot hook -/

/-- C8, as amended (hot-spot rejection). For every device descriptor, pipe id,
buffer handle, width, height and hot-spot offset, `drmModeSetCursor2` returns
`-EINVAL`, which is -22: a negative value, but not -1. -/
theorem C8_hotspot_rejection (fd : Int) (crtcId bo_handle width height : Nat)
    (hot_x hot_y : Int) :
    drmModeSetCursor2 fd crtcId bo_handle width height hot_x hot_y = -EINVAL ∧
    drmModeSetCursor2 fd crtcId bo_handle width height hot_x hot_y = -22 ∧
    drmModeSetCursor2 fd crtcId bo_handle width height hot_x hot_y < 0 := by
  refine ⟨rfl, rfl, ?_⟩
  simp [drmModeSetCursor2, EINVAL]

/-- C8 as stated fails: the hook returns -22, not -1. -/
theorem C8_counterexample : drmModeSetCursor2 3 50 5 64 64 0 0 ≠ -1 := by
  decide

/-! ### Pipe discovery -/

/-- The discovery loop records at most as many pipes as the device reports. -/
theorem drm_get_ctx_crtcs_le (k : drm_kernel) (prefer_planes : Nat → Nat) (prefer_plane : Nat) :
    ∀ (res_crtcs : List Nat) (i num_crtcs : Nat),
      (drm_get_ctx_crtcs k prefer_planes prefer_plane res_crtcs i num_crtcs).1 ≤
          num_crtcs + res_crtcs.length ∧
      ∀ w ∈ (drm_get_ctx_crtcs k prefer_planes prefer_plane res_crtcs i num_crtcs).2,
        w.1 < num_crtcs + res_crtcs.length := by
  intro res_crtcs
  induction res_crtcs with
  | nil => intro i n; simp [drm_get_ctx_crtcs]
  | cons id rest ih =>
    intro i n
    unfold drm_get_ctx_crtcs
    rcases k.drmModeGetCrtc id with _ | c
    · simp only [List.length_cons]
      obtain ⟨h1, h2⟩ := ih (i + 1) n
      exact ⟨by omega, fun w hw => by have := h2 w hw; omega⟩
    · simp only [List.length_cons, List.mem_cons]
      obtain ⟨h1, h2⟩ := ih (i + 1) (n + 1)
      refine ⟨by omega, ?_⟩
      rintro w (rfl | hw)
      · simp only; omega
      · have := h2 w hw; omega

/-- C10 fails on a device with nine pipes that can all be queried and nine
configured preferred planes: the pipe discovery of `drm_get_ctx` ends with
`num_crtcs = 9`, above `DRM_MAX_CRTCS`, and it writes `crtcs[8]` and
`prefer_planes[8]`. -/
theorem C10_pipe_list_overflow :
    (drm_get_ctx_discover example_kernel_wide [32, 32, 32, 32, 32, 32, 32, 32, 32] 0
      [50, 51, 52, 53, 54, 55, 56, 57, 58]).1 = 9 ∧
    ¬ (drm_get_ctx_discover example_kernel_wide [32, 32, 32, 32, 32, 32, 32, 32, 32] 0
      [50, 51, 52, 53, 54, 55, 56, 57, 58]).1 ≤ DRM_MAX_CRTCS ∧
    (drm_get_ctx_discover example_kernel_wide [32, 32, 32, 32, 32, 32, 32, 32, 32] 0
      [50, 51, 52, 53, 54, 55, 56, 57, 58]).2.1.map Prod.fst = [0, 1, 2, 3, 4, 5, 6, 7, 8] ∧
    (drm_get_ctx_discover example_kernel_wide [32, 32, 32, 32, 32, 32, 32, 32, 32] 0
      [50, 51, 52, 53, 54, 55, 56, 57, 58]).2.2.map Prod.fst = [0, 1, 2, 3, 4, 5, 6, 7, 8] ∧
    ¬ (∀ w ∈ (drm_get_ctx_discover example_kernel_wide [32, 32, 32, 32, 32, 32, 32, 32, 32] 0
      [50, 51, 52, 53, 54, 55, 56, 57, 58]).2.1, w.1 < DRM_MAX_CRTCS) := by
  refine ⟨by decide, by decide, by decide, by decide, by decide⟩

/-! ### Framebuffer ownership -/

theorem fb_ledger.run_append (L : fb_ledger) (a b : List hw_call) :
    L.run (a ++ b) = (L.run a).run b := by
  simp [fb_ledger.run, List.foldl_append]

theorem fb_ledger.step_reused (L : fb_ledger) (c : hw_call)
    (h : (L.step c).reused = false) : L.reused = false := by
  cases c <;> simp only [fb_ledger.step] at h
  · exact h
  · exact h
  · exact h
  · split_ifs at h
    · exact h
    · simp only [Bool.or_eq_false_iff] at h; exact h.1
  · exact h

theorem fb_ledger.run_reused (calls : List hw_call) :
    ∀ L : fb_ledger, (L.run calls).reused = false → L.reused = false := by
  induction calls with
  | nil => intro L h; exact h
  | cons c rest ih =>
    intro L h
    exact fb_ledger.step_reused L c (ih (L.step c) h)

/-- The plane disable of a pipe keeps the bookkeeping fitting. -/
theorem fb_ledger.owns_disable (L : fb_ledger) (g p : Nat) (h : L.owns g) :
    (L.run (if g ≠ 0 then [hw_call.drmModeSetPlane p 0 0 0 0 0 0, hw_call.drmModeRmFB g]
      else [])).owns 0 := by
  obtain ⟨h1, h2, h3, hp, h4, h5, h6, h7⟩ := h
  by_cases hg : g = 0
  · subst hg
    simp only [ne_eq, not_true_eq_false, if_false, fb_ledger.run, List.foldl_nil] at h1 ⊢
    exact ⟨by simpa using h1, h2, h3, hp, h4, h5, fun hh => absurd rfl hh, h7⟩
  · rw [if_pos hg] at h1 ⊢
    simp only [fb_ledger.run, List.foldl_cons, List.foldl_nil, fb_ledger.step]
    refine ⟨?_, ?_, ?_, rfl, h4, h5, fun hh => absurd rfl hh, ?_⟩
    · simp [h1]
    · exact List.nodup_cons.mpr ⟨fun hm => (h7 g hm).2 rfl, h2⟩
    · simp [h3, Ne.symm hg]
    · intro f hf
      simp only [List.mem_cons] at hf
      rcases hf with rfl | hf
      · exact ⟨h6 hg, hg⟩
      · refine ⟨(h7 f hf).1, ?_⟩
        intro h0
        exact h5 (h0 ▸ (h7 f hf).1)

/-- The label `error:` keeps the bookkeeping fitting and leaves no committed
framebuffer. -/
theorem fb_ledger.owns_thread_error (L : fb_ledger) (crtc : drm_crtc)
    (h : L.owns crtc.cursor_curr.fb) :
    (L.run (drm_crtc_thread_error crtc).2).owns (drm_crtc_thread_error crtc).1.cursor_curr.fb ∧
    (drm_crtc_thread_error crtc).1.cursor_next = crtc.cursor_next ∧
    (drm_crtc_thread_error crtc).1.thread = drm_thread_pc.exited := by
  unfold drm_crtc_thread_error drm_crtc_update_cursor
  refine ⟨?_, rfl, rfl⟩
  simp only
  rw [fb_ledger.run_append]
  have e : L.run (if crtc.egl_ctx = true then [hw_call.egl_free_ctx] else []) = L := by
    split_ifs <;> rfl
  rw [e]
  exact fb_ledger.owns_disable L _ _ h

/-- A commit that keeps the committed framebuffer keeps the bookkeeping
fitting. -/
theorem fb_ledger.owns_update_cursor_same (L : fb_ledger) (set_plane : Int) (crtc : drm_crtc)
    (cs : drm_cursor_state) (h : L.owns crtc.cursor_curr.fb)
    (hcs : cs.fb = crtc.cursor_curr.fb) :
    (L.run (drm_crtc_update_cursor set_plane crtc (some cs)).2.2).owns
      (drm_crtc_update_cursor set_plane crtc (some cs)).2.1.cursor_curr.fb := by
  unfold drm_crtc_update_cursor
  simp only
  split_ifs with h1 h2
  · simp only [fb_ledger.run, List.foldl_nil]
    rw [hcs]; exact h
  · exact absurd hcs.symm h2.2
  · simp only [fb_ledger.run, List.foldl_cons, List.foldl_nil, fb_ledger.step]
    rw [hcs]
    obtain ⟨a1, a2, a3, -, a4, a5, a6, a7⟩ := h
    exact ⟨a1, a2, a3, rfl, a4, a5, a6, a7⟩

/-- A commit of a framebuffer the converter just created, with a handle it
never returned before, releases the framebuffer committed so far after the
commit and keeps the bookkeeping fitting. -/
theorem fb_ledger.owns_update_cursor_new (L : fb_ledger) (set_plane : Int) (crtc : drm_crtc)
    (cs : drm_cursor_state) (handle : Nat) (width height off_x off_y : Int)
    (h : L.owns crtc.cursor_curr.fb) (hf : cs.fb ≠ 0) (hn : cs.fb ∉ L.created) :
    ((L.step (hw_call.egl_convert_fb handle width height off_x off_y cs.fb)).run
        (drm_crtc_update_cursor set_plane crtc (some cs)).2.2).owns
      (drm_crtc_update_cursor set_plane crtc (some cs)).2.1.cursor_curr.fb := by
  obtain ⟨h1, h2, h3, hp, h4, h5, h6, h7⟩ := h
  have hne : crtc.cursor_curr.fb ≠ cs.fb := by
    intro he
    by_cases hg : crtc.cursor_curr.fb = 0
    · exact hf (he ▸ hg)
    · exact hn (he ▸ h6 hg)
  unfold drm_crtc_update_cursor
  simp only
  rw [if_neg (fun hh => hne hh.1)]
  simp only [fb_ledger.step, if_neg hf]
  by_cases hg : crtc.cursor_curr.fb = 0
  · rw [if_neg (fun hh => hh.1 hg)]
    simp only [fb_ledger.run, List.foldl_cons, List.foldl_nil, fb_ledger.step]
    rw [hg] at h1 h7
    refine ⟨?_, h2, h3, rfl, ?_, ?_, ?_, ?_⟩
    · simp only [ne_eq, not_true_eq_false, if_false] at h1
      simp [h1, hf]
    · simp [h4, hn]
    · simp only [List.mem_cons, not_or]
      exact ⟨Ne.symm hf, h5⟩
    · intro _; exact List.mem_cons_self _ _
    · intro f hm
      refine ⟨List.mem_cons_of_mem _ (h7 f hm).1, ?_⟩
      intro he
      exact hn (he ▸ (h7 f hm).1)
  · rw [if_pos ⟨hg, hne⟩]
    simp only [fb_ledger.run, List.foldl_cons, List.foldl_nil, fb_ledger.step]
    rw [if_pos hg] at h1
    refine ⟨?_, ?_, ?_, rfl, ?_, ?_, ?_, ?_⟩
    · simp [h1, hf, Ne.symm hne]
    · exact List.nodup_cons.mpr ⟨fun hm => (h7 _ hm).2 rfl, h2⟩
    · simp [h3, Ne.symm hne]
    · simp [h4, hn]
    · simp only [List.mem_cons, not_or]
      exact ⟨Ne.symm hf, h5⟩
    · intro _; exact List.mem_cons_self _ _
    · intro f hm
      simp only [List.mem_cons] at hm
      rcases hm with rfl | hm
      · exact ⟨List.mem_cons_of_mem _ (h6 hg), hne⟩
      · refine ⟨List.mem_cons_of_mem _ (h7 f hm).1, ?_⟩
        intro he
        exact hn (he ▸ (h7 f hm).1)

/-- What `drm_crtc_create_fb` does: it keeps the committed state; it fails
without any framebuffer created, or it succeeds with the non-zero handle the
converter returned in `cursor_state->fb`. -/
theorem drm_crtc_create_fb_ledger (env : hw_env) (crtc : drm_crtc) (cs : drm_cursor_state)
    (L : fb_ledger) :
    (drm_crtc_create_fb env crtc cs).2.1.cursor_curr = crtc.cursor_curr ∧
    (drm_crtc_create_fb env crtc cs).2.1.cursor_next = crtc.cursor_next ∧
    (((drm_crtc_create_fb env crtc cs).1 < 0 ∧
        L.run (drm_crtc_create_fb env crtc cs).2.2.2 = L) ∨
      (¬ (drm_crtc_create_fb env crtc cs).1 < 0 ∧
        (drm_crtc_create_fb env crtc cs).2.2.1.fb ≠ 0 ∧
        L.run (drm_crtc_create_fb env crtc cs).2.2.2 =
          L.step (hw_call.egl_convert_fb cs.handle cs.width cs.height cs.off_x cs.off_y
            (drm_crtc_create_fb env crtc cs).2.2.1.fb))) := by
  unfold drm_crtc_create_fb
  simp only
  split_ifs with h1 h2 h3 h3
  · exact ⟨rfl, rfl, Or.inl ⟨by simp, rfl⟩⟩
  · refine ⟨rfl, rfl, Or.inl ⟨by simp, ?_⟩⟩
    simp [fb_ledger.run, fb_ledger.step, h2]
  · refine ⟨rfl, rfl, Or.inl ⟨by simp, ?_⟩⟩
    simp [fb_ledger.run, fb_ledger.step, h2]
  · refine ⟨rfl, rfl, Or.inr ⟨by simp, h2, ?_⟩⟩
    simp [fb_ledger.run, fb_ledger.step]
  · refine ⟨rfl, rfl, Or.inr ⟨by simp, h2, ?_⟩⟩
    simp [fb_ledger.run, fb_ledger.step]

theorem drm_crtc_update_cursor_cursor_next (set_plane : Int) (crtc : drm_crtc)
    (cs : Option drm_cursor_state) :
    (drm_crtc_update_cursor set_plane crtc cs).2.1.cursor_next = crtc.cursor_next := by
  unfold drm_crtc_update_cursor
  cases cs with
  | none => rfl
  | some cs =>
    simp only
    split_ifs <;> rfl

/-- Conversion followed by commit keeps the bookkeeping fitting, when the
converter returns no handle it returned before. -/
theorem fb_ledger.owns_create_update (L : fb_ledger) (env : hw_env) (crtc : drm_crtc)
    (cs : drm_cursor_state) (h : L.owns crtc.cursor_curr.fb)
    (hr : (L.run (drm_crtc_thread_create_update env crtc cs).2.2).reused = false) :
    (L.run (drm_crtc_thread_create_update env crtc cs).2.2).owns
      (drm_crtc_thread_create_update env crtc cs).2.1.cursor_curr.fb ∧
    (drm_crtc_thread_create_update env crtc cs).2.1.cursor_next = crtc.cursor_next := by
  obtain ⟨e1, e2, hcase⟩ := drm_crtc_create_fb_ledger env crtc cs L
  unfold drm_crtc_thread_create_update at hr ⊢
  simp only at hr ⊢
  generalize drm_crtc_create_fb env crtc cs = c at *
  rcases hcase with ⟨h1, h2⟩ | ⟨h1, h2, h3⟩
  · rw [if_pos h1] at hr ⊢
    simp only
    rw [h2, e1]
    exact ⟨h, e2⟩
  · rw [if_neg h1] at hr ⊢
    simp only at hr ⊢
    rw [fb_ledger.run_append, h3] at hr ⊢
    have hr1 := fb_ledger.run_reused _ _ hr
    have hfresh : c.2.2.1.fb ∉ L.created := by
      simp only [fb_ledger.step, if_neg h2, Bool.or_eq_false_iff, decide_eq_false_iff_not] at hr1
      exact hr1.2
    refine ⟨?_, ?_⟩
    · exact fb_ledger.owns_update_cursor_new L env.drmModeSetPlane c.2.1 c.2.2.1 cs.handle
        cs.width cs.height cs.off_x cs.off_y (by rw [e1]; exact h) h2 hfresh
    · rw [drm_crtc_update_cursor_cursor_next, e2]

/-- The loop body of the worker keeps the bookkeeping fitting, when the
request it holds carries no framebuffer and the converter returns no handle
it returned before. -/
theorem fb_ledger.owns_thread_body (L : fb_ledger) (env : hw_env) (crtc : drm_crtc)
    (cs : drm_cursor_state) (h : L.owns crtc.cursor_curr.fb) (hcs : cs.fb = 0)
    (hr : (L.run (drm_crtc_thread_body env crtc cs).2.2).reused = false) :
    (L.run (drm_crtc_thread_body env crtc cs).2.2).owns
      (drm_crtc_thread_body env crtc cs).2.1.cursor_curr.fb ∧
    (drm_crtc_thread_body env crtc cs).2.1.cursor_next = crtc.cursor_next := by
  unfold drm_crtc_thread_body at hr ⊢
  by_cases h1 : cs.reload ≠ 0
  · rw [if_pos h1] at hr ⊢
    by_cases h2 : cs.handle = 0
    · rw [if_pos h2]
      exact ⟨fb_ledger.owns_disable L _ _ h, rfl⟩
    · rw [if_neg h2] at hr ⊢
      exact fb_ledger.owns_create_update L env crtc cs h hr
  · rw [if_neg h1] at hr ⊢
    by_cases h2 : crtc.cursor_curr.off_x ≠ cs.off_x ∨ crtc.cursor_curr.off_y ≠ cs.off_y
    · rw [if_pos h2] at hr ⊢
      exact fb_ledger.owns_create_update L env crtc cs h hr
    · rw [if_neg h2]
      by_cases h3 : crtc.cursor_curr.fb = 0
      · rw [if_pos h3]
        refine ⟨?_, rfl⟩
        simp only [fb_ledger.run, List.foldl_nil]
        rw [hcs, ← h3]
        exact h
      · rw [if_neg h3]
        simp only
        exact ⟨fb_ledger.owns_update_cursor_same L _ crtc _ h rfl,
          drm_crtc_update_cursor_cursor_next _ _ _⟩

/-- Every event keeps the bookkeeping fitting the pipe, when the converter
returns no handle it returned before. -/
theorem fb_ledger.fits_pipe_step (L : fb_ledger) (crtc : drm_crtc) (e : pipe_event)
    (h : L.fits crtc) (hr : (L.run (pipe_step crtc e).2).reused = false) :
    (L.run (pipe_step crtc e).2).fits (pipe_step crtc e).1 := by
  obtain ⟨h1, h2, h3⟩ := h
  cases e with
  | set_request handle width height =>
    simp only [pipe_step, drm_set_cursor_request]
    split_ifs
    · exact ⟨h1, h2, h3⟩
    · exact ⟨h1, rfl, h3⟩
  | move_request width height x y =>
    simp only [pipe_step, drm_move_cursor_request]
    split_ifs
    · exact ⟨h1, h2, h3⟩
    · exact ⟨h1, rfl, h3⟩
  | thread_step env =>
    simp only [pipe_step] at hr ⊢
    unfold drm_crtc_thread_step at hr ⊢
    rcases ht : crtc.thread with _ | _ | cs | _
    · simp only [drm_crtc_thread_exec, ht]
      exact ⟨h1, h2, h3⟩
    · simp only [drm_crtc_thread_fetch, ht]
      split_ifs
      · refine ⟨h1, h2, ?_⟩
        intro cs hcs
        simp only [drm_thread_pc.running.injEq] at hcs
        rw [← hcs]; exact h2
      · exact ⟨h1, h2, h3⟩
    · rw [ht] at hr
      simp only [drm_crtc_thread_exec, ht] at hr ⊢
      have hcs := h3 cs ht
      by_cases hb : (drm_crtc_thread_body env crtc cs).1 = true
      · rw [if_pos hb] at hr ⊢
        obtain ⟨b1, b2⟩ := fb_ledger.owns_thread_body L env crtc cs h1 hcs hr
        refine ⟨b1, by rw [drm_crtc_thread_next, b2]; exact h2, ?_⟩
        intro cs2 hcs2
        simp [drm_crtc_thread_next] at hcs2
      · rw [if_neg hb] at hr ⊢
        simp only at hr ⊢
        rw [fb_ledger.run_append] at hr ⊢
        obtain ⟨b1, b2⟩ := fb_ledger.owns_thread_body L env crtc cs h1 hcs
          (fb_ledger.run_reused _ _ hr)
        obtain ⟨c1, c2, c3⟩ := fb_ledger.owns_thread_error _ _ b1
        refine ⟨c1, by rw [c2, b2]; exact h2, ?_⟩
        intro cs2 hcs2
        rw [c3] at hcs2
        cases hcs2
    · simp only [drm_crtc_thread_exec, ht]
      exact ⟨h1, h2, h3⟩

theorem pipe_run_cons (crtc : drm_crtc) (e : pipe_event) (es : List pipe_event) :
    pipe_run crtc (e :: es) =
      ((pipe_run (pipe_step crtc e).1 es).1,
        (pipe_step crtc e).2 ++ (pipe_run (pipe_step crtc e).1 es).2) := rfl

theorem pipe_run_append (crtc : drm_crtc) (a b : List pipe_event) :
    pipe_run crtc (a ++ b) =
      ((pipe_run (pipe_run crtc a).1 b).1, (pipe_run crtc a).2 ++ (pipe_run (pipe_run crtc a).1 b).2) := by
  induction a generalizing crtc with
  | nil => simp [pipe_run]
  | cons e es ih =>
    rw [List.cons_append, pipe_run_cons, pipe_run_cons, ih]
    simp [List.append_assoc]

/-- Every sequence of events keeps the bookkeeping fitting the pipe, when the
converter returns no handle it returned before. -/
theorem fb_ledger.fits_pipe_run (evs : List pipe_event) :
    ∀ (L : fb_ledger) (crtc : drm_crtc), L.fits crtc →
      (L.run (pipe_run crtc evs).2).reused = false →
      (L.run (pipe_run crtc evs).2).fits (pipe_run crtc evs).1 := by
  induction evs with
  | nil => intro L crtc h _; exact h
  | cons e es ih =>
    intro L crtc h hr
    simp only [pipe_run] at hr ⊢
    rw [fb_ledger.run_append] at hr ⊢
    exact ih _ _ (fb_ledger.fits_pipe_step L crtc e h (fb_ledger.run_reused _ _ hr)) hr

/-- C9 (framebuffer ownership: no leak, no double release). Start from a
prepared pipe in the initial state (`cursor_curr` and `cursor_next` all zero,
worker waiting) and let any sequence of set requests, move requests and worker
steps happen, in which the converter never returns a handle it returned
before. Then after every initial part of the sequence, hence after each
processed request, also one that ends in `ERROR`: the framebuffers created by
the converter and not yet released are exactly `cursor_curr.fb` when that is
not 0 and none otherwise; no handle was released twice; no handle was
released while the latest `drmModeSetPlane` call issued was for that handle,
so the release of a replaced framebuffer comes after the commit of its
successor; and the latest `drmModeSetPlane` call issued was for
`cursor_curr.fb`. -/
theorem C9_framebuffer_ownership (crtc : drm_crtc) (evs : List pipe_event)
    (h0 : crtc.cursor_curr = drm_cursor_state.zero)
    (h1 : crtc.cursor_next = drm_cursor_state.zero)
    (h2 : crtc.thread = drm_thread_pc.waiting)
    (hfresh : (fb_ledger.empty.run (pipe_run crtc evs).2).reused = false) (n : Nat) :
    (fb_ledger.empty.run (pipe_run crtc (evs.take n)).2).live =
      (if (pipe_run crtc (evs.take n)).1.cursor_curr.fb ≠ 0 then
        [(pipe_run crtc (evs.take n)).1.cursor_curr.fb] else []) ∧
    (fb_ledger.empty.run (pipe_run crtc (evs.take n)).2).released.Nodup ∧
    (fb_ledger.empty.run (pipe_run crtc (evs.take n)).2).premature = false ∧
    (fb_ledger.empty.run (pipe_run crtc (evs.take n)).2).plane_fb =
      (pipe_run crtc (evs.take n)).1.cursor_curr.fb := by
  have hfit : fb_ledger.empty.fits crtc := by
    refine ⟨?_, by rw [h1]; rfl, ?_⟩
    · rw [h0]
      simp [fb_ledger.owns, fb_ledger.empty, drm_cursor_state.zero]
    · intro cs hcs
      rw [h2] at hcs
      cases hcs
  have hpre : (fb_ledger.empty.run (pipe_run crtc (evs.take n)).2).reused = false := by
    rw [← List.take_append_drop n evs, pipe_run_append] at hfresh
    simp only at hfresh
    rw [fb_ledger.run_append] at hfresh
    exact fb_ledger.run_reused _ _ hfresh
  obtain ⟨⟨a1, a2, a3, a4, -⟩, -⟩ := fb_ledger.fits_pipe_run (evs.take n) _ crtc hfit hpre
  exact ⟨a1, a2, a3, a4⟩

/-- C9 on the concrete session, after the edge move: framebuffer 10 is the
only live one and it is the committed one. -/
theorem C9_framebuffer_ownership_witness :
    (fb_ledger.empty.run (pipe_run (example_crtc 50 0 32 32) (example_events.take 6)).2).live =
      (if (pipe_run (example_crtc 50 0 32 32) (example_events.take 6)).1.cursor_curr.fb ≠ 0 then
        [(pipe_run (example_crtc 50 0 32 32) (example_events.take 6)).1.cursor_curr.fb]
        else []) ∧
    (fb_ledger.empty.run
      (pipe_run (example_crtc 50 0 32 32) (example_events.take 6)).2).released.Nodup ∧
    (fb_ledger.empty.run
      (pipe_run (example_crtc 50 0 32 32) (example_events.take 6)).2).premature = false ∧
    (fb_ledger.empty.run
      (pipe_run (example_crtc 50 0 32 32) (example_events.take 6)).2).plane_fb =
      (pipe_run (example_crtc 50 0 32 32) (example_events.take 6)).1.cursor_curr.fb :=
  C9_framebuffer_ownership (example_crtc 50 0 32 32) example_events (by decide) (by decide)
    (by decide) (by decide) 6

/-! ### The rejection rules and the selection steps -/

/-- For an unbound pipe `i`, the test "Plane already assigned" of
`drm_crtc_bind_plane` fires exactly when the plane id is 0 or another pipe
records the plane. -/
theorem any_plane_id_iff {ctx : drm_ctx} {i : Nat} {crtc : drm_crtc} (p : Nat)
    (hc : ctx.crtcs.get? i = some crtc) (h0 : crtc.plane_id = 0) :
    ctx.crtcs.any (fun c => c.plane_id == p) = true ↔
      ¬ (p ≠ 0 ∧ ∀ j < ctx.crtcs.length, j ≠ i → ctx.plane_id_of j ≠ p) := by
  constructor
  · rintro h ⟨hp, hall⟩
    obtain ⟨c, hmem, hce⟩ := List.any_eq_true.mp h
    obtain ⟨j, hj⟩ := List.mem_iff_get?.mp hmem
    have hce2 : c.plane_id = p := by simpa using hce
    by_cases hji : j = i
    · subst hji
      rw [hc] at hj
      cases hj
      exact hp (hce2.symm.trans h0)
    · exact hall j (lt_of_get?_eq_some hj) hji ((plane_id_of_eq hj).trans hce2)
  · intro h
    by_cases hp : p = 0
    · exact List.any_eq_true.mpr ⟨crtc, List.mem_iff_get?.mpr ⟨i, hc⟩, by simp [h0, hp]⟩
    · have : ¬ ∀ j < ctx.crtcs.length, j ≠ i → ctx.plane_id_of j ≠ p := fun hall => h ⟨hp, hall⟩
      push_neg at this
      obtain ⟨j, hj, -, hjp⟩ := this
      obtain ⟨c, hcj⟩ := get?_isSome_of_lt hj
      rw [plane_id_of_eq hcj] at hjp
      exact List.any_eq_true.mpr ⟨c, List.mem_iff_get?.mpr ⟨j, hcj⟩, by simp [hjp]⟩

/-- On an unbound pipe `drm_crtc_bind_plane` returns -1 and changes nothing
for a plane that does not pass the rejection rules. -/
theorem drm_crtc_bind_plane_of_not_passes (k : drm_kernel) (ctx : drm_ctx) (i p : Nat)
    (ua ao : Int) (crtc : drm_crtc) (hc : ctx.crtcs.get? i = some crtc)
    (h0 : crtc.plane_id = 0) (h : plane_passes k ctx i p ua ao = false) :
    drm_crtc_bind_plane k ctx i p ua ao = (-1, ctx) := by
  unfold plane_passes at h
  rw [hc] at h
  simp only at h
  unfold drm_crtc_bind_plane
  rw [hc]
  simp only
  rw [if_neg (by simp [h0])]
  by_cases h2 : ctx.crtcs.any (fun c => c.plane_id == p) = true
  · rw [if_pos h2]
  · rw [if_neg h2]
    have h2b := (not_congr (any_plane_id_iff p hc h0)).mp h2
    simp only [not_not] at h2b
    rcases hp : drm_get_plane k p with _ | plane
    · rfl
    · rw [hp] at h
      simp only at h ⊢
      by_cases h3 : plane.possible_crtcs &&& ((1 <<< crtc.crtc_pipe) % 4294967296) = 0
      · rw [if_pos h3]
      · rw [if_neg h3]
        rcases ht : drm_plane_get_prop_value k plane "type" with _ | value
        · rfl
        · rw [ht] at h
          simp only at h ⊢
          by_cases h4 : value = DRM_PLANE_TYPE_PRIMARY
          · rw [if_pos h4]
          · rw [if_neg h4]
            by_cases h5 : ao = 0 ∧ value = DRM_PLANE_TYPE_OVERLAY
            · rw [if_pos h5]
            · rw [if_neg h5]
              by_cases h6 : drm_plane_has_afbc k plane ≥ 0
              · exfalso
                have h5b : value = DRM_PLANE_TYPE_OVERLAY → ao ≠ 0 :=
                  fun hv ha => h5 ⟨ha, hv⟩
                simp [h2b.1, h2b.2, h3, h4, h5b, h6] at h
                exact h5 ⟨(h h2b.2).2, (h h2b.2).1⟩
              · rw [if_neg h6]
                by_cases h7 : ua ≠ 0
                · rw [if_pos h7]
                · exfalso
                  have h5b : value = DRM_PLANE_TYPE_OVERLAY → ao ≠ 0 :=
                    fun hv ha => h5 ⟨ha, hv⟩
                  simp only [ne_eq, not_not] at h7
                  simp [h2b.1, h2b.2, h3, h4, h5b, h7] at h
                  exact h5 ⟨(h h2b.2).2, (h h2b.2).1⟩

/-- On an unbound pipe `drm_crtc_bind_plane` returns 0 for a plane that
passes the rejection rules and records it; the flag `use_afbc_modifier` is
set when the plane declares AFBC support, which it does when the attempt
requires it. -/
theorem drm_crtc_bind_plane_of_passes (k : drm_kernel) (ctx : drm_ctx) (i p : Nat)
    (ua ao : Int) (crtc : drm_crtc) (hc : ctx.crtcs.get? i = some crtc)
    (h0 : crtc.plane_id = 0) (h : plane_passes k ctx i p ua ao = true) :
    ∃ plane, drm_get_plane k p = some plane ∧
      (ua ≠ 0 → drm_plane_has_afbc k plane ≥ 0) ∧
      drm_crtc_bind_plane k ctx i p ua ao =
        (0, ctx.set_crtc i { crtc with
          use_afbc_modifier :=
            if drm_plane_has_afbc k plane ≥ 0 then 1 else crtc.use_afbc_modifier,
          plane_id := p }) := by
  unfold plane_passes at h
  rw [hc] at h
  simp only [Bool.and_eq_true, decide_eq_true_eq] at h
  obtain ⟨⟨hp0, hall⟩, h⟩ := h
  have hany : ¬ ctx.crtcs.any (fun c => c.plane_id == p) = true :=
    fun ha => (any_plane_id_iff p hc h0).mp ha ⟨hp0, hall⟩
  rcases hp : drm_get_plane k p with _ | plane
  · rw [hp] at h; cases h
  · rw [hp] at h
    simp only [Bool.and_eq_true, decide_eq_true_eq] at h
    obtain ⟨hm, h⟩ := h
    rcases ht : drm_plane_get_prop_value k plane "type" with _ | value
    · rw [ht] at h; cases h
    · rw [ht] at h
      simp only [Bool.and_eq_true, decide_eq_true_eq] at h
      obtain ⟨⟨hv, hov⟩, hafbc⟩ := h
      refine ⟨plane, rfl, hafbc, ?_⟩
      have hid := drm_get_plane_plane_id hp
      unfold drm_crtc_bind_plane
      rw [hc]
      simp only
      rw [if_neg (by simp [h0]), if_neg hany, hp]
      simp only
      rw [if_neg hm, ht]
      simp only
      rw [if_neg hv, if_neg (fun h5 => hov h5.2 h5.1), hid]
      by_cases h6 : drm_plane_has_afbc k plane ≥ 0
      · rw [if_pos h6, if_pos h6]
      · rw [if_neg h6, if_neg h6, if_neg (fun h7 => h6 (hafbc h7))]

theorem plane_passes_ne_zero {k : drm_kernel} {ctx : drm_ctx} {i p : Nat} {ua ao : Int}
    (h : plane_passes k ctx i p ua ao = true) : p ≠ 0 := by
  unfold plane_passes at h
  rcases hc : ctx.crtcs.get? i with _ | crtc
  · rw [hc] at h; cases h
  · rw [hc] at h
    simp only [Bool.and_eq_true, decide_eq_true_eq] at h
    exact h.1.1

/-- A selection loop of `drm_crtc_prepare` on an unbound pipe binds nothing
when no plane of its list passes the rejection rules. -/
theorem drm_crtc_prepare_loop_none (k : drm_kernel) (i : Nat) (ua ao : Int) (ctx : drm_ctx)
    (crtc : drm_crtc) (hc : ctx.crtcs.get? i = some crtc) (h0 : crtc.plane_id = 0) :
    ∀ planes : List Nat, (∀ q ∈ planes, plane_passes k ctx i q ua ao = false) →
      drm_crtc_prepare_loop k i ua ao planes ctx = ctx := by
  intro planes
  induction planes with
  | nil => intro _; rfl
  | cons q rest ih =>
    intro h
    unfold drm_crtc_prepare_loop
    rw [if_neg (by rw [plane_id_of_eq hc, h0]; simp),
      drm_crtc_bind_plane_of_not_passes k ctx i q ua ao crtc hc h0
        (h q (List.mem_cons_self _ _))]
    exact ih (fun q2 hq2 => h q2 (List.mem_cons_of_mem _ hq2))

/-- A selection loop of `drm_crtc_prepare` on an unbound pipe binds the first
plane of its list that passes the rejection rules, and nothing after it. -/
theorem drm_crtc_prepare_loop_first (k : drm_kernel) (i : Nat) (ua ao : Int) (ctx : drm_ctx)
    (crtc : drm_crtc) (hc : ctx.crtcs.get? i = some crtc) (h0 : crtc.plane_id = 0)
    (p : Nat) (post : List Nat) (hp : plane_passes k ctx i p ua ao = true) :
    ∀ pre : List Nat, (∀ q ∈ pre, plane_passes k ctx i q ua ao = false) →
      drm_crtc_prepare_loop k i ua ao (pre ++ p :: post) ctx =
        (drm_crtc_bind_plane k ctx i p ua ao).2 := by
  intro pre
  induction pre with
  | nil =>
    intro _
    rw [List.nil_append]
    unfold drm_crtc_prepare_loop
    rw [if_neg (by rw [plane_id_of_eq hc, h0]; simp)]
    obtain ⟨plane, -, -, hb⟩ := drm_crtc_bind_plane_of_passes k ctx i p ua ao crtc hc h0 hp
    apply drm_crtc_prepare_loop_bound
    rw [hb]
    simp only
    rw [plane_id_of_set_crtc_self _ hc]
    exact plane_passes_ne_zero hp
  | cons q rest ih =>
    intro h
    rw [List.cons_append]
    unfold drm_crtc_prepare_loop
    rw [if_neg (by rw [plane_id_of_eq hc, h0]; simp),
      drm_crtc_bind_plane_of_not_passes k ctx i q ua ao crtc hc h0
        (h q (List.mem_cons_self _ _))]
    exact ih (fun q2 hq2 => h q2 (List.mem_cons_of_mem _ hq2))

/-- A selection loop of `drm_crtc_prepare` that leaves an unbound pipe unbound
found no plane that passes the rejection rules. -/
theorem drm_crtc_prepare_loop_unbound (k : drm_kernel) (i : Nat) (ua ao : Int) (ctx : drm_ctx)
    (crtc : drm_crtc) (hc : ctx.crtcs.get? i = some crtc) (h0 : crtc.plane_id = 0) :
    ∀ planes : List Nat, (drm_crtc_prepare_loop k i ua ao planes ctx).plane_id_of i = 0 →
      ∀ q ∈ planes, plane_passes k ctx i q ua ao = false := by
  intro planes
  induction planes with
  | nil => intro _ q hq; cases hq
  | cons q rest ih =>
    intro h
    unfold drm_crtc_prepare_loop at h
    rw [if_neg (by rw [plane_id_of_eq hc, h0]; simp)] at h
    rcases hq : plane_passes k ctx i q ua ao with _ | _
    · rw [drm_crtc_bind_plane_of_not_passes k ctx i q ua ao crtc hc h0 hq] at h
      intro q2 hq2
      simp only [List.mem_cons] at hq2
      rcases hq2 with rfl | hq2
      · exact hq
      · exact ih h q2 hq2
    · exfalso
      obtain ⟨plane, -, -, hb⟩ := drm_crtc_bind_plane_of_passes k ctx i q ua ao crtc hc h0 hq
      have hne : (drm_crtc_bind_plane k ctx i q ua ao).2.plane_id_of i ≠ 0 := by
        rw [hb]
        simp only
        rw [plane_id_of_set_crtc_self _ hc]
        exact plane_passes_ne_zero hq
      rw [drm_crtc_prepare_loop_bound k i ua ao rest _ hne] at h
      exact hne h

/-- A plane that passes the rejection rules when compressed-layout support is
required passes them when it is not. -/
theorem plane_passes_of_afbc {k : drm_kernel} {ctx : drm_ctx} {i p : Nat} {ao : Int}
    (h : plane_passes k ctx i p 1 ao = true) : plane_passes k ctx i p 0 ao = true := by
  unfold plane_passes at h ⊢
  rcases hc : ctx.crtcs.get? i with _ | crtc
  · rw [hc] at h; cases h
  · rw [hc] at h
    simp only [Bool.and_eq_true, decide_eq_true_eq] at h ⊢
    refine ⟨h.1, ?_⟩
    rcases hp : drm_get_plane k p with _ | plane
    · rw [hp] at h; exact absurd h.2 (by simp)
    · rw [hp] at h
      simp only [Bool.and_eq_true, decide_eq_true_eq] at h ⊢
      refine ⟨h.2.1, ?_⟩
      rcases ht : drm_plane_get_prop_value k plane "type" with _ | value
      · rw [ht] at h; exact absurd h.2.2 (by simp)
      · rw [ht] at h
        simp only [Bool.and_eq_true, decide_eq_true_eq] at h ⊢
        exact ⟨h.2.2.1, fun h7 => absurd rfl h7⟩

/-- A plane of overlay type does not pass the rejection rules when overlay is
not allowed for the attempt. -/
theorem plane_passes_overlay (k : drm_kernel) (ctx : drm_ctx) (i p : Nat) (ua : Int)
    (plane : drm_plane) (hp : drm_get_plane k p = some plane)
    (ht : drm_plane_get_prop_value k plane "type" = some DRM_PLANE_TYPE_OVERLAY) :
    plane_passes k ctx i p ua 0 = false := by
  unfold plane_passes
  rcases hc : ctx.crtcs.get? i with _ | crtc
  · rfl
  · simp only [hp, ht]
    simp

/-- The loop "Try AFBC plane" of `drm_crtc_prepare` accepts no plane that the
loop "Try cursor plane" before it rejected: when the latter leaves the pipe
unbound, the former changes nothing. -/
theorem drm_crtc_prepare_loop_afbc_after_cursor (k : drm_kernel) (i : Nat) (ctx : drm_ctx)
    (crtc : drm_crtc) (hc : ctx.crtcs.get? i = some crtc) (h0 : crtc.plane_id = 0)
    (planes : List Nat)
    (h : (drm_crtc_prepare_loop k i 0 0 planes ctx).plane_id_of i = 0) :
    drm_crtc_prepare_loop k i 1 0 planes ctx = ctx := by
  apply drm_crtc_prepare_loop_none k i 1 0 ctx crtc hc h0
  intro q hq
  have h2 := drm_crtc_prepare_loop_unbound k i 0 0 ctx crtc hc h0 planes h q hq
  rcases h3 : plane_passes k ctx i q 1 0 with _ | _
  · rfl
  · rw [plane_passes_of_afbc h3] at h2
    cases h2

/-- The loop "Try AFBC plane" of `drm_crtc_prepare` never changes what the
loop "Try cursor plane" hands it: either that loop bound a plane and the
guard `!crtc->plane_id` stops the AFBC loop, or it rejected every plane and
the AFBC loop, whose rules are stricter, rejects them too. -/
theorem drm_crtc_prepare_afbc_step_idle (k : drm_kernel) (i : Nat) (ctx : drm_ctx)
    (crtc : drm_crtc) (hc : ctx.crtcs.get? i = some crtc) (planes : List Nat) :
    drm_crtc_prepare_loop k i 1 0 planes (drm_crtc_prepare_loop k i 0 0 planes ctx) =
      drm_crtc_prepare_loop k i 0 0 planes ctx := by
  by_cases hb : (drm_crtc_prepare_loop k i 0 0 planes ctx).plane_id_of i = 0
  · by_cases h0 : crtc.plane_id = 0
    · rw [drm_crtc_prepare_loop_none k i 0 0 ctx crtc hc h0 planes
        (drm_crtc_prepare_loop_unbound k i 0 0 ctx crtc hc h0 planes hb)]
      exact drm_crtc_prepare_loop_afbc_after_cursor k i ctx crtc hc h0 planes hb
    · have hne : ctx.plane_id_of i ≠ 0 := by rw [plane_id_of_eq hc]; exact h0
      rw [drm_crtc_prepare_loop_bound k i 0 0 planes ctx hne]
      exact drm_crtc_prepare_loop_bound k i 1 0 planes ctx hne
  · exact drm_crtc_prepare_loop_bound k i 1 0 planes _ hb

/-- C12 fails on an inventory whose plane with AFBC support is an overlay. The
context prefers the compressed layout, pipe 0 has neither plane nor hint,
step 2 binds nothing on the inventory [31, 32], and plane 32 is available for
the pipe (no pipe records it, its bitmask contains the pipe, its type is
overlay, not primary) and declares AFBC support. Step 3 calls
`drm_crtc_bind_plane` with overlay not allowed, which rejects plane 32 with
-1: step 3 binds nothing, `use_afbc_modifier` stays 0 and `drm_crtc_prepare`
returns -1. -/
theorem C12_afbc_step_rejects_overlay :
    (example_ctx_afbc [31, 32]).prefer_afbc_modifier ≠ 0 ∧
    (example_ctx_afbc [31, 32]).plane_id_of 0 = 0 ∧
    drm_crtc_prepare_loop example_kernel 0 0 0 [31, 32] (example_ctx_afbc [31, 32]) =
      example_ctx_afbc [31, 32] ∧
    plane_passes example_kernel (example_ctx_afbc [31, 32]) 0 32 1 1 = true ∧
    drm_get_plane example_kernel 32 =
      some { plane_id := 32, possible_crtcs := 3, props := [(1, 0), (2, 100)] } ∧
    drm_plane_get_prop_value example_kernel
      { plane_id := 32, possible_crtcs := 3, props := [(1, 0), (2, 100)] } "type" =
      some DRM_PLANE_TYPE_OVERLAY ∧
    drm_plane_has_afbc example_kernel
      { plane_id := 32, possible_crtcs := 3, props := [(1, 0), (2, 100)] } = 0 ∧
    drm_crtc_bind_plane example_kernel (example_ctx_afbc [31, 32]) 0 32 1 0 =
      (-1, example_ctx_afbc [31, 32]) ∧
    drm_crtc_prepare_loop example_kernel 0 1 0 [31, 32] (example_ctx_afbc [31, 32]) =
      example_ctx_afbc [31, 32] ∧
    drm_crtc_prepare example_kernel (example_ctx_afbc [31, 32]) 0 =
      some (-1, example_ctx_afbc [31, 32]) := by
  refine ⟨by decide, by decide, by decide, by decide, by decide, by decide, by decide,
    by decide, by decide, by decide⟩

/-- The overlay fallback of `drm_crtc_prepare` never tries the plane at
discovery index 0: on an unbound pipe without a hint, when steps 2 and 3 find
no plane and no plane after the first passes the rejection rules with overlay
allowed, `drm_crtc_prepare` returns -1 and binds nothing, whether or not the
first plane passes them. -/
theorem drm_crtc_prepare_skips_first (k : drm_kernel) (ctx : drm_ctx) (i : Nat)
    (crtc : drm_crtc) (p0 : Nat) (rest : List Nat)
    (hc : ctx.crtcs.get? i = some crtc) (h0 : crtc.plane_id = 0)
    (hhint : crtc.prefer_plane_id = 0)
    (hplanes : ctx.planes = p0 :: rest)
    (h2 : ∀ q ∈ ctx.planes, plane_passes k ctx i q 0 0 = false)
    (h4 : ∀ q ∈ rest, plane_passes k ctx i q 0 1 = false) :
    drm_crtc_prepare k ctx i = some (-1, ctx) := by
  have e2 := drm_crtc_prepare_loop_none k i 0 0 ctx crtc hc h0 ctx.planes h2
  have e3 : drm_crtc_prepare_loop k i 1 0 ctx.planes ctx = ctx := by
    apply drm_crtc_prepare_loop_afbc_after_cursor k i ctx crtc hc h0
    rw [e2, plane_id_of_eq hc, h0]
  have e4 : drm_crtc_prepare_loop k i 0 1 (ctx.planes.drop 1).reverse ctx = ctx := by
    apply drm_crtc_prepare_loop_none k i 0 1 ctx crtc hc h0
    intro q hq
    rw [hplanes] at hq
    simp only [List.drop_succ_cons, List.drop_zero, List.mem_reverse] at hq
    exact h4 q hq
  have hpid : ctx.plane_id_of i = 0 := by rw [plane_id_of_eq hc, h0]
  unfold drm_crtc_prepare
  rw [hc]
  simp only
  rw [if_neg (show ¬ crtc.plane_id ≠ 0 by simp [h0]),
    if_neg (show ¬ crtc.prefer_plane_id ≠ 0 by simp [hhint]), e2, e3, ite_self,
    if_neg (show ¬ (ctx.allow_overlay ≠ 0 ∧ ctx.plane_id_of i = 0 ∧ ctx.planes = []) from
      fun h => by rw [hplanes] at h; exact absurd h.2.2 (by simp)),
    e4, ite_self, if_pos hpid]

/-- C11 fails on inventories whose only acceptable plane is the first one.
Overlays are allowed, pipe 0 has neither plane nor hint, and the overlay
plane 32 passes the rejection rules with overlay allowed
(`drm_crtc_bind_plane_force` on it returns 0). With the inventory [32, 31]
(31 is primary) and with the inventory [32], `drm_crtc_prepare` returns -1 and
binds nothing: the fallback loop stops before index 0. With the inventory
[31, 32] it binds plane 32. -/
theorem C11_fallback_skips_index_zero :
    (example_ctx_overlay [32, 31]).allow_overlay ≠ 0 ∧
    plane_passes example_kernel (example_ctx_overlay [32, 31]) 0 32 0 1 = true ∧
    (drm_crtc_bind_plane example_kernel (example_ctx_overlay [32, 31]) 0 32 0 1).1 = 0 ∧
    plane_passes example_kernel (example_ctx_overlay [32, 31]) 0 31 0 1 = false ∧
    drm_crtc_prepare example_kernel (example_ctx_overlay [32, 31]) 0 =
      some (-1, example_ctx_overlay [32, 31]) ∧
    drm_crtc_prepare example_kernel (example_ctx_overlay [32]) 0 =
      some (-1, example_ctx_overlay [32]) ∧
    (drm_crtc_prepare example_kernel (example_ctx_overlay [31, 32]) 0).map
      (fun r => (r.1, r.2.plane_id_of 0)) = some (0, 32) := by
  refine ⟨by decide, by decide, by decide, by decide, by decide, by decide, by decide⟩

/-! ### Moves before the first image -/

/-- The branch "Pre-moving" of `drm_crtc_thread_fn`. For every move request
(reload flag 0, any position) whose edge offset equals the committed one and
that the worker processes while the pipe has no committed framebuffer
(`cursor_curr.fb = 0`): the loop body copies the request into `cursor_curr`,
issues no call (neither the converter nor a plane commit) and reaches
`next:`; a worker that holds such a request ends waiting with the state
`IDLE` or, when a newer request arrived, `PENDING`, never `ERROR`; and a
waiting worker that finds such a request `PENDING` fetches and absorbs it and
leaves the pipe `IDLE`. -/
theorem drm_crtc_thread_pre_moving (crtc : drm_crtc) (hfb : crtc.cursor_curr.fb = 0) :
    (∀ (env : hw_env) (cs : drm_cursor_state), cs.reload = 0 →
      cs.off_x = crtc.cursor_curr.off_x → cs.off_y = crtc.cursor_curr.off_y →
      drm_crtc_thread_body env crtc cs = (true, { crtc with cursor_curr := cs }, []) ∧
      (crtc.thread = drm_thread_pc.running cs →
        drm_crtc_thread_exec env crtc =
          ({ crtc with
              cursor_curr := cs,
              state := if crtc.state ≠ drm_thread_state.PENDING then drm_thread_state.IDLE
                else crtc.state,
              thread := drm_thread_pc.waiting }, []) ∧
        (drm_crtc_thread_exec env crtc).1.state ≠ drm_thread_state.ERROR)) ∧
    (∀ env1 env2 : hw_env,
      crtc.thread = drm_thread_pc.waiting → crtc.state = drm_thread_state.PENDING →
      crtc.cursor_next.reload = 0 →
      crtc.cursor_next.off_x = crtc.cursor_curr.off_x →
      crtc.cursor_next.off_y = crtc.cursor_curr.off_y →
      pipe_run crtc [pipe_event.thread_step env1, pipe_event.thread_step env2] =
        ({ crtc with cursor_curr := crtc.cursor_next, state := drm_thread_state.IDLE }, [])) := by
  have hbody : ∀ (env : hw_env) (cs : drm_cursor_state), cs.reload = 0 →
      cs.off_x = crtc.cursor_curr.off_x → cs.off_y = crtc.cursor_curr.off_y →
      drm_crtc_thread_body env crtc cs = (true, { crtc with cursor_curr := cs }, []) := by
    intro env cs hr hx hy
    unfold drm_crtc_thread_body
    rw [if_neg (by simp [hr]), if_neg (by simp [hx, hy]), if_pos hfb]
  constructor
  · intro env cs hr hx hy
    refine ⟨hbody env cs hr hx hy, ?_⟩
    intro ht
    have hexec : drm_crtc_thread_exec env crtc =
        ({ crtc with
            cursor_curr := cs,
            state := if crtc.state ≠ drm_thread_state.PENDING then drm_thread_state.IDLE
              else crtc.state,
            thread := drm_thread_pc.waiting }, []) := by
      unfold drm_crtc_thread_exec
      rw [ht]
      simp only
      rw [hbody env cs hr hx hy]
      simp [drm_crtc_thread_next]
    refine ⟨hexec, ?_⟩
    rw [hexec]
    simp only
    split_ifs with h1
    · decide
    · intro h2
      simp only [ne_eq, not_not] at h1
      rw [h1] at h2
      cases h2
  · intro env1 env2 ht hs hr hx hy
    simp only [pipe_run, pipe_step, drm_crtc_thread_step, ht, drm_crtc_thread_fetch, hs,
      and_self, if_true, drm_crtc_thread_exec, drm_crtc_thread_body, drm_crtc_thread_next]
    simp [hr, hx, hy, hfb, ht]

/-- The branch "Pre-moving" on the concrete device: before the first image is
set, a move to (100, 100), inside the pipe, is absorbed without any call. -/
theorem drm_crtc_thread_pre_moving_inside :
    pipe_run (drm_move_cursor_request (example_crtc 50 0 32 32) 1920 1080 100 100).2
        [pipe_event.thread_step example_env_failing,
          pipe_event.thread_step example_env_failing] =
      ({ (drm_move_cursor_request (example_crtc 50 0 32 32) 1920 1080 100 100).2 with
          cursor_curr :=
            (drm_move_cursor_request (example_crtc 50 0 32 32) 1920 1080 100 100).2.cursor_next,
          state := drm_thread_state.IDLE }, []) :=
  (drm_crtc_thread_pre_moving
    (drm_move_cursor_request (example_crtc 50 0 32 32) 1920 1080 100 100).2 (by decide)).2
    example_env_failing example_env_failing
    (by decide) (by decide) (by decide) (by decide) (by decide)

/-- C13 fails for a move whose edge offset differs from the committed one.
The pipe is prepared, nothing is committed (`cursor_curr.fb = 0`), no image
was set yet (the buffer handle in the slot is 0) and the slot holds the
request of `Move(-5, 0)`: reload flag 0, edge offset (-5, 0). The worker takes
the branch "Edge moving" before it tests "Pre-moving": it calls the converter
on handle 0. When the converter fails the pipe ends in `ERROR` with the worker
gone; when it returns framebuffer 9 the worker commits the plane, and a failed
commit ends in `ERROR` as well. In no case is the request absorbed: the
converter is invoked. -/
theorem C13_edge_moving_before_pre_moving :
    example_crtc_pre_moving.cursor_curr.fb = 0 ∧
    example_crtc_pre_moving.cursor_next.handle = 0 ∧
    example_crtc_pre_moving.cursor_next.reload = 0 ∧
    example_crtc_pre_moving.cursor_next.off_x = -5 ∧
    example_crtc_pre_moving.state = drm_thread_state.PENDING ∧
    (pipe_run example_crtc_pre_moving
      [pipe_event.thread_step example_env_no_fb,
        pipe_event.thread_step example_env_no_fb]).2 =
      [hw_call.egl_init_ctx 0 0 false,
        hw_call.egl_convert_fb 0 0 0 (-5) 0 0,
        hw_call.egl_free_ctx] ∧
    (pipe_run example_crtc_pre_moving
      [pipe_event.thread_step example_env_no_fb,
        pipe_event.thread_step example_env_no_fb]).1.state = drm_thread_state.ERROR ∧
    (pipe_run example_crtc_pre_moving
      [pipe_event.thread_step example_env_no_fb,
        pipe_event.thread_step example_env_no_fb]).1.thread = drm_thread_pc.exited ∧
    (pipe_run example_crtc_pre_moving
      [pipe_event.thread_step example_env_failing,
        pipe_event.thread_step example_env_failing]).2 =
      [hw_call.egl_init_ctx 0 0 false,
        hw_call.egl_convert_fb 0 0 0 (-5) 0 9,
        hw_call.drmModeSetPlane 32 50 9 0 0 0 0,
        hw_call.egl_free_ctx,
        hw_call.drmModeSetPlane 32 0 0 0 0 0 0,
        hw_call.drmModeRmFB 9] ∧
    (pipe_run example_crtc_pre_moving
      [pipe_event.thread_step example_env_failing,
        pipe_event.thread_step example_env_failing]).1.state = drm_thread_state.ERROR ∧
    (pipe_run example_crtc_pre_moving
      [pipe_event.thread_step example_env,
        pipe_event.thread_step example_env]).2 =
      [hw_call.egl_init_ctx 0 0 false,
        hw_call.egl_convert_fb 0 0 0 (-5) 0 9,
        hw_call.drmModeSetPlane 32 50 9 0 0 0 0] := by
  refine ⟨by decide, by decide, by decide, by decide, by decide, by decide, by decide,
    by decide, by decide, by decide, by decide⟩

end DrmCursor
